import Mathlib

/-!
Verification development for the subs-check-rust proxy verification pipeline.

The Rust sources are shallowly embedded:
- Rust strings are Lean `String`s (a Rust `String` is a sequence of Unicode
  scalar values stored as UTF-8; byte-level operations go through an explicit
  `utf8` encoder defined below).
- Rust `u16`/`u64`/`usize` values are `Nat` (none of the embedded operations
  can overflow them at the values the claims quantify over).
- Rust `f64` values that the embedded code only compares against the exact
  dyadic constants 1.0, 0.75, 0.5, 0.25 (the CIDR threshold) or against a
  configured minimum (the speed) are modelled as `Rat`; every constant
  involved is exactly representable in both types, so the order comparisons
  coincide.
- fallible Rust functions returning `anyhow::Result` are `Except`/`Option`.
- network I/O (the probe battery of src/check/mod.rs) is modelled by an
  explicit oracle record `ProbeEnv` giving each probe's outcome, and the
  shared atomic `Stats` counters by the list of increment events a single
  worker emits, in program order.
-/

set_option maxHeartbeats 1000000

namespace SubsCheck

/-! # Definitions -/

/-! ## Characters and decimal digits -/

/-- Numeric value of an ASCII decimal digit character (Rust: byte minus b'0'). -/
def digitVal (c : Char) : Nat := c.toNat - 48

/-- ASCII decimal digit test (Rust char::is_ascii_digit). -/
def isDigitChar (c : Char) : Bool := 48 ≤ c.toNat && c.toNat ≤ 57

/-- ASCII hexadecimal digit test (Rust char::is_ascii_hexdigit). -/
def isHexDigitChar (c : Char) : Bool :=
  (48 ≤ c.toNat && c.toNat ≤ 57) || (97 ≤ c.toNat && c.toNat ≤ 102) ||
    (65 ≤ c.toNat && c.toNat ≤ 70)

/-- The character for the decimal digit d (d < 10). -/
def digitChar (d : Nat) : Char := Char.ofNat (48 + d)

/-- Decimal rendering of a natural number, as Rust Display for unsigned
integers produces it (no leading zeros, plain digits).  The first argument
is fuel; at fuel n ≥ the digit count the result is exact. -/
def natToStrAux : Nat → Nat → List Char
  | 0, _ => []
  | fuel + 1, n =>
    if n = 0 then []
    else natToStrAux fuel (n / 10) ++ [digitChar (n % 10)]

/-- Decimal rendering of a natural number (Rust format!("{}", n) for u16/u64). -/
def natToStr (n : Nat) : String :=
  if n = 0 then "0" else String.mk (natToStrAux n n)

/-! ## The strict IPv4 dotted-quad grammar

`ProxyNode::get_ip_address` calls Rust std's `str::parse::<IpAddr>()`.
The standard library's IPv4 parser accepts exactly four decimal octets
separated by dots, each octet 0..=255 written without leading zeros
(`"0"` alone is allowed); this is the canonical decimal form, so the parser
is injective.  We embed that grammar directly. -/

/-- Parse one decimal octet exactly as Rust std does: non-empty, all ASCII
digits, no leading zero (except the single digit `"0"`), value at most 255.
Rust's reader stops after at most three digits, which on this grammar accepts
the same strings as the value bound does. -/
def parseOctet (l : List Char) : Option Nat :=
  if l = [] then none
  else if ¬ (l.all isDigitChar = true) then none
  else if 1 < l.length ∧ l.head? = some '0' then none
  else
    let v := Nat.ofDigits 10 (l.map digitVal).reverse
    if v ≤ 255 then some v else none

/-- Split a character list at every occurrence of a separator character
(Rust `str::split`): n separators yield n+1 (possibly empty) parts. -/
def splitOnChar (sep : Char) : List Char → List (List Char)
  | [] => [[]]
  | c :: cs =>
    if c = sep then [] :: splitOnChar sep cs
    else
      match splitOnChar sep cs with
      | [] => [[c]]
      | p :: ps => (c :: p) :: ps

/-- Joining with the separator is a left inverse of `splitOnChar`. -/
def joinWithChar (sep : Char) : List (List Char) → List Char
  | [] => []
  | [p] => p
  | p :: ps => p ++ sep :: joinWithChar sep ps

/-- Parse a dotted-quad IPv4 address; mirrors Rust std's strict grammar. -/
def parseIPv4 (s : List Char) : Option (Nat × Nat × Nat × Nat) := do
  match splitOnChar '.' s with
  | [a, b, c, d] =>
    let x ← parseOctet a
    let y ← parseOctet b
    let z ← parseOctet c
    let w ← parseOctet d
    pure (x, y, z, w)
  | _ => none

/-! ## The IPv6 textual grammar

Rust std's IPv6 parser accepts the RFC 4291 textual forms: groups of one to
four hexadecimal digits (leading zeros allowed) separated by single colons,
either exactly eight groups, or fewer with exactly one `::` marking elided
zero groups, and optionally a trailing embedded dotted-quad IPv4 address
standing for the last two groups.  We embed the standard equivalent
characterization: split at the first `::` (if any) and count groups; any
second `::` or stray colon surfaces as an empty group and is rejected.
`is_same_cidr` only ever asks whether a host is IPv6 and then compares raw
server strings, so the group values themselves are not retained. -/

/-- A `::` occurrence splits the string; returns the parts before the first
occurrence and after it. -/
def findDoubleColon : List Char → Option (List Char × List Char)
  | [] => none
  | [_] => none
  | a :: b :: rest =>
    if a = ':' ∧ b = ':' then some ([], rest)
    else
      match findDoubleColon (b :: rest) with
      | some (l, r) => some (a :: l, r)
      | none => none

/-- One to four hex digits. -/
def validHexGroup (l : List Char) : Bool :=
  !l.isEmpty && decide (l.length ≤ 4) && l.all isHexDigitChar

/-- Number of 16-bit groups a colon-separated component list stands for:
all components hex groups, or all but the last hex and the last an embedded
IPv4 address (worth two groups). -/
def groupCountV6 (rs : List (List Char)) : Option Nat :=
  if rs.all validHexGroup then some rs.length
  else
    match rs.getLast? with
    | some last =>
      if rs.dropLast.all validHexGroup && (parseIPv4 last).isSome then
        some (rs.length + 1)
      else none
    | none => none

/-- Recognize the textual IPv6 grammar of Rust std's parser. -/
def isIPv6 (s : List Char) : Bool :=
  match findDoubleColon s with
  | none =>
    let cs := splitOnChar ':' s
    (decide (cs.length = 8) && cs.all validHexGroup) ||
      (decide (cs.length = 7) && cs.dropLast.all validHexGroup &&
        (match cs.getLast? with
         | some last => (parseIPv4 last).isSome
         | none => false))
  | some (l, r) =>
    let lcs := if l.isEmpty then [] else splitOnChar ':' l
    if lcs.all validHexGroup then
      if r.isEmpty then decide (lcs.length ≤ 7)
      else
        match groupCountV6 (splitOnChar ':' r) with
        | some g => decide (lcs.length + g ≤ 7)
        | none => false
    else false

/-! ## Proxy descriptors (src/proxy/mod.rs) -/

/-- The `ProxyNode` record of src/proxy/mod.rs.  The two untyped JSON bags
`ws_headers` and `reality_opts` are never read by any operation embedded
here (URL building, CIDR proximity, shuffling, checking) and are omitted. -/
structure ProxyNode where
  name : String
  server : String
  port : Nat
  protocol : String
  username : Option String := none
  password : Option String := none
  uuid : Option String := none
  alter_id : Option Nat := none
  cipher : Option String := none
  tls : Option Bool := none
  sni : Option String := none
  network : Option String := none
  ws_path : Option String := none
  skip_cert_verify : Option Bool := none
  server_name : Option String := none
  fingerprint : Option String := none
  alpn : Option (List String) := none
  servername : Option String := none
  flow : Option String := none
deriving DecidableEq

/-- Result of Rust std's `str::parse::<IpAddr>()`: the parser tries IPv4
first, then IPv6 (no string is accepted by both grammars).  The checker only
ever inspects the address family and, for IPv4, the four octets. -/
inductive IpAddrM where
  | v4 (a b c d : Nat)
  | v6
deriving DecidableEq

/-- `ProxyNode::get_ip_address`: `self.server.parse().ok()`. -/
def get_ip_address (server : String) : Option IpAddrM :=
  match parseIPv4 server.data with
  | some (a, b, c, d) => some (IpAddrM.v4 a b c d)
  | none => if isIPv6 server.data then some IpAddrM.v6 else none

/-- `ProxyNode::to_proxy_url`. -/
def ProxyNode.to_proxy_url (p : ProxyNode) : String :=
  match p.username, p.password with
  | some username, some password =>
    p.protocol ++ "://" ++ username ++ ":" ++ password ++ "@" ++
      p.server ++ ":" ++ natToStr p.port
  | _, _ => p.protocol ++ "://" ++ p.server ++ ":" ++ natToStr p.port

/-- `ProxyNode::is_same_cidr`.  The f64 threshold is modelled as `Rat`;
the four cut-offs 1.0, 0.75, 0.5, 0.25 are exact in both types. -/
def is_same_cidr (p other : ProxyNode) (threshold : ℚ) : Bool :=
  match get_ip_address p.server, get_ip_address other.server with
  | some (IpAddrM.v4 a1 b1 c1 d1), some (IpAddrM.v4 a2 b2 c2 d2) =>
    if 1 ≤ threshold then
      decide (a1 = a2 ∧ b1 = b2 ∧ c1 = c2 ∧ d1 = d2)
    else if 3/4 ≤ threshold then
      decide (a1 = a2 ∧ b1 = b2 ∧ c1 = c2)
    else if 1/2 ≤ threshold then
      decide (a1 = a2 ∧ b1 = b2)
    else if 1/4 ≤ threshold then
      decide (a1 = a2)
    else false
  | some IpAddrM.v6, some IpAddrM.v6 => p.server == other.server
  | _, _ => false

/-- A proxy node with an unparseable server host, used as concrete input. -/
def fooNode : ProxyNode :=
  { name := "foo", server := "not-an-ip", port := 80, protocol := "http" }

/-- Concrete IPv4 nodes for witnesses. -/
def nodeA : ProxyNode :=
  { name := "a", server := "10.1.2.3", port := 80, protocol := "http" }

def nodeB : ProxyNode :=
  { name := "b", server := "10.1.2.9", port := 80, protocol := "http" }

/-! ## UTF-8 and base64

Rust Strings are UTF-8 byte sequences; `base64::engine::general_purpose::STANDARD`
encodes those bytes with the standard alphabet and `=` padding.  Bytes are
naturals below 256. -/

/-- UTF-8 encoding of one Unicode scalar value. -/
def utf8Char (n : Nat) : List Nat :=
  if n < 128 then [n]
  else if n < 2048 then [192 + n / 64, 128 + n % 64]
  else if n < 65536 then [224 + n / 4096, 128 + (n / 64) % 64, 128 + n % 64]
  else [240 + n / 262144, 128 + (n / 4096) % 64, 128 + (n / 64) % 64, 128 + n % 64]

/-- UTF-8 encoding of a character sequence (the bytes of a Rust String). -/
def utf8 (s : List Char) : List Nat := (s.map (fun c => utf8Char c.toNat)).flatten

/-- Standard base64 alphabet, index to character. -/
def b64Char (n : Nat) : Char :=
  if n < 26 then Char.ofNat (65 + n)
  else if n < 52 then Char.ofNat (97 + (n - 26))
  else if n < 62 then Char.ofNat (48 + (n - 52))
  else if n = 62 then '+'
  else '/'

/-- Standard base64 alphabet, character to index. -/
def b64Val (c : Char) : Option Nat :=
  if 65 ≤ c.toNat ∧ c.toNat ≤ 90 then some (c.toNat - 65)
  else if 97 ≤ c.toNat ∧ c.toNat ≤ 122 then some (c.toNat - 97 + 26)
  else if 48 ≤ c.toNat ∧ c.toNat ≤ 57 then some (c.toNat - 48 + 52)
  else if c = '+' then some 62
  else if c = '/' then some 63
  else none

/-- Standard (padded) base64 encoding of a byte sequence. -/
def b64Encode : List Nat → List Char
  | [] => []
  | [a] => [b64Char (a / 4), b64Char (a % 4 * 16), '=', '=']
  | [a, b] =>
    [b64Char (a / 4), b64Char (a % 4 * 16 + b / 16), b64Char (b % 16 * 4), '=']
  | a :: b :: c :: rest =>
    b64Char (a / 4) :: b64Char (a % 4 * 16 + b / 16) ::
      b64Char (b % 16 * 4 + c / 64) :: b64Char (c % 64) :: b64Encode rest

/-- Standard (padded) base64 decoding. -/
def b64Decode : List Char → Option (List Nat)
  | [] => some []
  | c0 :: c1 :: c2 :: c3 :: rest =>
    match b64Val c0, b64Val c1, b64Val c2, b64Val c3 with
    | some s0, some s1, some s2, some s3 =>
      match b64Decode rest with
      | some tail =>
        some ((s0 * 4 + s1 / 16) :: (s1 % 16 * 16 + s2 / 4) ::
          (s2 % 4 * 64 + s3) :: tail)
      | none => none
    | some s0, some s1, some s2, none =>
      if c3 = '=' ∧ rest = [] then
        some [s0 * 4 + s1 / 16, s1 % 16 * 16 + s2 / 4]
      else none
    | some s0, some s1, none, none =>
      if c2 = '=' ∧ c3 = '=' ∧ rest = [] then some [s0 * 4 + s1 / 16]
      else none
    | _, _, _, _ => none
  | _ => none

/-- Base64 of a byte list, as a string. -/
def b64EncodeStr (bytes : List Nat) : String := String.mk (b64Encode bytes)

/-- `STANDARD.encode(s)` for a Rust string s: base64 of its UTF-8 bytes. -/
def encodeStd (s : String) : String := b64EncodeStr (utf8 s.data)

/-! ## Percent-encoding (the urlencoding crate) -/

/-- Bytes the urlencoding crate leaves as-is: ASCII alphanumerics and
`-`, `.`, `_`, `~`. -/
def isUrlSafeByte (b : Nat) : Bool :=
  (65 ≤ b && b ≤ 90) || (97 ≤ b && b ≤ 122) || (48 ≤ b && b ≤ 57) ||
    b = 45 || b = 46 || b = 95 || b = 126

/-- Uppercase hexadecimal digit character (d < 16). -/
def hexDigitUpper (d : Nat) : Char :=
  if d < 10 then digitChar d else Char.ofNat (55 + d)

/-- Lowercase hexadecimal digit character (d < 16). -/
def hexDigitLower (d : Nat) : Char :=
  if d < 10 then digitChar d else Char.ofNat (87 + d)

/-- `urlencoding::encode`: percent-encode every non-safe UTF-8 byte. -/
def urlencode (s : String) : String :=
  String.mk (((utf8 s.data).map (fun b =>
    if isUrlSafeByte b then [Char.ofNat b]
    else ['%', hexDigitUpper (b / 16), hexDigitUpper (b % 16)])).flatten)

/-! ## JSON values (serde_json) as used by the VMess builder

The builder constructs one flat object whose values are strings and
integers; `serde_json::Value`'s default map type is a BTreeMap, so
serialization emits the keys in sorted order. -/

inductive JVal where
  | str (s : String)
  | num (n : Int)
deriving DecidableEq

structure JObj where
  fields : List (String × JVal)
deriving DecidableEq

def JObj.lookup (o : JObj) (k : String) : Option JVal := o.fields.lookup k

/-- Decimal rendering of an integer (Rust Display / serde_json number). -/
def intToStr (n : Int) : String :=
  if n < 0 then "-" ++ natToStr n.natAbs else natToStr n.natAbs

/-- serde_json string escaping: quote, backslash and ASCII control
characters; everything else is emitted raw (UTF-8). -/
def jsonEscapeChar (c : Char) : List Char :=
  if c = '"' then ['\\', '"']
  else if c = '\\' then ['\\', '\\']
  else if c.toNat = 8 then ['\\', 'b']
  else if c.toNat = 9 then ['\\', 't']
  else if c.toNat = 10 then ['\\', 'n']
  else if c.toNat = 12 then ['\\', 'f']
  else if c.toNat = 13 then ['\\', 'r']
  else if c.toNat < 32 then
    ['\\', 'u', '0', '0', hexDigitLower (c.toNat / 16), hexDigitLower (c.toNat % 16)]
  else [c]

def jsonEscape (s : String) : String := String.mk ((s.data.map jsonEscapeChar).flatten)

def serializeJVal : JVal → String
  | JVal.str s => "\"" ++ jsonEscape s ++ "\""
  | JVal.num n => intToStr n

/-- Compact serde_json serialization of a flat object. -/
def serializeJObj (o : JObj) : String :=
  "\x7b" ++ String.intercalate "," (o.fields.map (fun kv =>
    "\"" ++ jsonEscape kv.1 ++ "\":" ++ serializeJVal kv.2)) ++ "\x7d"

/-! ## Proxy node info and the URL builders (src/clash_proxy) -/

/-- The protocol-specific JSON bag `ProxyNodeInfo::extra_info`, projected
through the accessors the URL builders use:
`extra_info.get(key).and_then(|v| v.as_str())` (or `as_i64` / `as_bool`).
A key that is absent, or present with the wrong JSON type, is `none`. -/
structure ExtraInfo where
  username : Option String := none
  password : Option String := none
  method : Option String := none
  plugin : Option String := none
  pluginOpts : Option String := none      -- key "plugin-opts"
  uuid : Option String := none
  alterId : Option Int := none            -- key "alterId", via as_i64
  security : Option String := none
  network : Option String := none
  vtype : Option String := none           -- key "type"
  host : Option String := none
  path : Option String := none
  tls : Option String := none
  sni : Option String := none
  alpn : Option String := none
  protocol : Option String := none
  protocolParam : Option String := none   -- key "protocol-param"
  obfs : Option String := none
  obfsParam : Option String := none       -- key "obfs-param"
  udp : Option Bool := none               -- key "udp", via as_bool
deriving DecidableEq

/-- The `ProxyNodeInfo` record of src/clash_proxy/types.rs. -/
structure ProxyNodeInfo where
  name : String
  proto : String
  server : String
  port : Nat
  support_udp : Bool := false
  delay_ms : Nat := 0
  node_type : String := "unknown"
  extra_info : Option ExtraInfo := none
deriving DecidableEq

/-- The anyhow error messages the URL builders produce, by shape.  Exactly
one construction site in build_proxy_url and its sub-builders corresponds to
each constructor; `unsupportedProtocol p` stands for the message
"不支持的代理协议: p". -/
inductive BuildError where
  | unsupportedProtocol (proto : String)
  | missingPassword (kind : String)
  | missingUuid (kind : String)
  | missingExtraInfo (kind : String)
deriving DecidableEq

/-- `ProxyHealthChecker::build_http_proxy_url`. -/
def build_http_proxy_url (info : ProxyNodeInfo) : Except BuildError String :=
  let cred :=
    match info.extra_info with
    | some ei =>
      match ei.username, ei.password with
      | some username, some password => username ++ ":" ++ password ++ "@"
      | _, _ => ""
    | none => ""
  Except.ok (info.proto ++ "://" ++ cred ++ info.server ++ ":" ++ natToStr info.port)

/-- `ProxyHealthChecker::build_socks_proxy_url` (same shape as HTTP). -/
def build_socks_proxy_url (info : ProxyNodeInfo) : Except BuildError String :=
  let cred :=
    match info.extra_info with
    | some ei =>
      match ei.username, ei.password with
      | some username, some password => username ++ ":" ++ password ++ "@"
      | _, _ => ""
    | none => ""
  Except.ok (info.proto ++ "://" ++ cred ++ info.server ++ ":" ++ natToStr info.port)

/-- `ProxyHealthChecker::build_shadowsocks_url`. -/
def build_shadowsocks_url (info : ProxyNodeInfo) : Except BuildError String :=
  match info.extra_info with
  | some ei =>
    match ei.password with
    | some password =>
      let method := ei.method.getD "aes-256-gcm"
      let url := "ss://" ++ method ++ ":" ++ password ++ "@" ++ info.server ++
        ":" ++ natToStr info.port
      match ei.plugin with
      | some plugin =>
        let plugin_opts := ei.pluginOpts.getD ""
        if plugin_opts ≠ "" then
          Except.ok (url ++ "/?plugin=" ++ urlencode plugin ++ "%3B" ++
            urlencode plugin_opts)
        else
          Except.ok (url ++ "/?plugin=" ++ urlencode plugin)
      | none => Except.ok url
    | none => Except.error (BuildError.missingPassword "Shadowsocks")
  | none => Except.error (BuildError.missingExtraInfo "Shadowsocks")

/-- The VMess JSON configuration object (the json! literal of
`build_vmess_url`), with its keys in the sorted order serde_json's default
BTreeMap map serializes. -/
def vmessConfig (info : ProxyNodeInfo) (ei : ExtraInfo) (uuid : String) : JObj :=
  ⟨[("add", JVal.str info.server),
    ("aid", JVal.num (ei.alterId.getD 0)),
    ("alpn", JVal.str (ei.alpn.getD "")),
    ("host", JVal.str (ei.host.getD "")),
    ("id", JVal.str uuid),
    ("net", JVal.str (ei.network.getD "tcp")),
    ("path", JVal.str (ei.path.getD "")),
    ("port", JVal.num (info.port : Int)),
    ("ps", JVal.str info.name),
    ("scy", JVal.str (ei.security.getD "auto")),
    ("sni", JVal.str (ei.sni.getD "")),
    ("tls", JVal.str (ei.tls.getD "")),
    ("type", JVal.str (ei.vtype.getD "none")),
    ("v", JVal.str "2")]⟩

/-- `ProxyHealthChecker::build_vmess_url`. -/
def build_vmess_url (info : ProxyNodeInfo) : Except BuildError String :=
  match info.extra_info with
  | some ei =>
    match ei.uuid with
    | some uuid =>
      Except.ok ("vmess://" ++ encodeStd (serializeJObj (vmessConfig info ei uuid)))
    | none => Except.error (BuildError.missingUuid "VMess")
  | none => Except.error (BuildError.missingExtraInfo "VMess")

/-- One `key=value` fragment parameter, included only when the field is
present and non-empty. -/
def optParam (key : String) (v : Option String) : List String :=
  match v with
  | some s => if s ≠ "" then [key ++ "=" ++ s] else []
  | none => []

/-- `ProxyHealthChecker::build_vless_url`. -/
def build_vless_url (info : ProxyNodeInfo) : Except BuildError String :=
  match info.extra_info with
  | some ei =>
    match ei.uuid with
    | some uuid =>
      let url := "vless://" ++ uuid ++ "@" ++ info.server ++ ":" ++ natToStr info.port
      let params := optParam "security" ei.security ++ optParam "type" ei.network ++
        optParam "host" ei.host ++ optParam "path" ei.path ++
        optParam "tls" ei.tls ++ optParam "sni" ei.sni
      if params ≠ [] then
        Except.ok (url ++ "#" ++ String.intercalate "&" params)
      else Except.ok url
    | none => Except.error (BuildError.missingUuid "VLESS")
  | none => Except.error (BuildError.missingExtraInfo "VLESS")

/-- `ProxyHealthChecker::build_trojan_url`. -/
def build_trojan_url (info : ProxyNodeInfo) : Except BuildError String :=
  match info.extra_info with
  | some ei =>
    match ei.password with
    | some password =>
      let url := "trojan://" ++ password ++ "@" ++ info.server ++ ":" ++
        natToStr info.port
      let params := optParam "security" ei.security ++ optParam "host" ei.host ++
        optParam "path" ei.path ++ optParam "tls" ei.tls ++ optParam "sni" ei.sni
      if params ≠ [] then
        Except.ok (url ++ "#" ++ String.intercalate "&" params)
      else Except.ok url
    | none => Except.error (BuildError.missingPassword "Trojan")
  | none => Except.error (BuildError.missingExtraInfo "Trojan")

/-- The colon-delimited SSR base string
`server:port:protocol:method:obfs:base64(password)`. -/
def ssrBaseStr (info : ProxyNodeInfo) (ei : ExtraInfo) (password : String) : String :=
  info.server ++ ":" ++ natToStr info.port ++ ":" ++ ei.protocol.getD "origin" ++
    ":" ++ ei.method.getD "aes-256-cfb" ++ ":" ++ ei.obfs.getD "plain" ++
    ":" ++ encodeStd password

/-- The optional obfsparam/protoparam query parameters of the SSR string. -/
def ssrParams (ei : ExtraInfo) : List String :=
  (if ei.obfsParam.getD "" ≠ "" then
    ["obfsparam=" ++ encodeStd (ei.obfsParam.getD "")]
  else []) ++
  (if ei.protocolParam.getD "" ≠ "" then
    ["protoparam=" ++ encodeStd (ei.protocolParam.getD "")]
  else [])

/-- The full SSR string that gets base64-encoded. -/
def ssrFullStr (info : ProxyNodeInfo) (ei : ExtraInfo) (password : String) : String :=
  if ssrParams ei ≠ [] then
    ssrBaseStr info ei password ++ "/?" ++ String.intercalate "&" (ssrParams ei)
  else ssrBaseStr info ei password

/-- `ProxyHealthChecker::build_ssr_url`. -/
def build_ssr_url (info : ProxyNodeInfo) : Except BuildError String :=
  match info.extra_info with
  | some ei =>
    match ei.password with
    | some password =>
      Except.ok ("ssr://" ++ encodeStd (ssrFullStr info ei password))
    | none => Except.error (BuildError.missingPassword "SSR")
  | none => Except.error (BuildError.missingExtraInfo "SSR")

/-- `ProxyHealthChecker::build_hysteria_url`. -/
def build_hysteria_url (info : ProxyNodeInfo) : Except BuildError String :=
  Except.ok ("hysteria://" ++ info.server ++ ":" ++ natToStr info.port ++
    "#" ++ info.name)

/-- `ProxyHealthChecker::build_tuic_url`. -/
def build_tuic_url (info : ProxyNodeInfo) : Except BuildError String :=
  match info.extra_info with
  | some ei =>
    match ei.password with
    | some password =>
      let url := "tuic://" ++ password ++ "@" ++ info.server ++ ":" ++
        natToStr info.port
      let params := optParam "uuid" ei.uuid ++ optParam "host" ei.host ++
        optParam "path" ei.path
      if params ≠ [] then
        Except.ok (url ++ "#" ++ String.intercalate "&" params)
      else Except.ok url
    | none => Except.error (BuildError.missingPassword "Tuic")
  | none => Except.error (BuildError.missingExtraInfo "Tuic")

/-- `ProxyHealthChecker::build_wireguard_url`. -/
def build_wireguard_url (info : ProxyNodeInfo) : Except BuildError String :=
  Except.ok ("wireguard://" ++ info.server ++ ":" ++ natToStr info.port ++
    "#" ++ info.name)

/-- The fixed protocol set `ProxyHealthChecker::build_proxy_url` dispatches
on (the match arms of health_check.rs; distinct from the list in
`validate_proxy_node`). -/
def hcSupportedProtocols : List String :=
  ["http", "https", "socks4", "socks5", "ss", "vmess", "vless", "trojan",
   "ssr", "hysteria", "tuic", "wireguard"]

/-- `ProxyHealthChecker::build_proxy_url`. -/
def build_proxy_url (info : ProxyNodeInfo) : Except BuildError String :=
  if info.proto = "http" ∨ info.proto = "https" then build_http_proxy_url info
  else if info.proto = "socks4" ∨ info.proto = "socks5" then
    build_socks_proxy_url info
  else if info.proto = "ss" then build_shadowsocks_url info
  else if info.proto = "vmess" then build_vmess_url info
  else if info.proto = "vless" then build_vless_url info
  else if info.proto = "trojan" then build_trojan_url info
  else if info.proto = "ssr" then build_ssr_url info
  else if info.proto = "hysteria" then build_hysteria_url info
  else if info.proto = "tuic" then build_tuic_url info
  else if info.proto = "wireguard" then build_wireguard_url info
  else Except.error (BuildError.unsupportedProtocol info.proto)

/-- Concrete nodes for witnesses: the spec's Shadowsocks example. -/
def ssExampleExtra : ExtraInfo :=
  { password := some "secret", method := some "aes-256-gcm" }

def ssExampleInfo : ProxyNodeInfo :=
  { name := "ss-example", proto := "ss", server := "ss.example.com", port := 8388,
    extra_info := some ssExampleExtra }

/-- The same node with no method field. -/
def ssNoMethodExtra : ExtraInfo := { password := some "secret" }

def ssNoMethodInfo : ProxyNodeInfo :=
  { name := "ss-example", proto := "ss", server := "ss.example.com", port := 8388,
    extra_info := some ssNoMethodExtra }

/-- A node with a protocol tag outside the supported set. -/
def unknownProtoInfo : ProxyNodeInfo :=
  { name := "unknown-node", proto := "unknown", server := "example.com", port := 8080 }

/-- A concrete SSR node with both optional parameters. -/
def ssrExampleExtra : ExtraInfo :=
  { password := some "pw", method := some "aes-256-cfb",
    protocol := some "auth_aes128_md5", obfs := some "tls1.2_ticket_auth",
    protocolParam := some "pp", obfsParam := some "ob" }

def ssrExampleInfo : ProxyNodeInfo :=
  { name := "ssr-example", proto := "ssr", server := "1.2.3.4", port := 443,
    extra_info := some ssrExampleExtra }

/-- A concrete VMess node with every round-tripped field present. -/
def vmessExampleExtra : ExtraInfo :=
  { uuid := some "12345678-1234-1234-1234-123456789012", alterId := some 0,
    security := some "auto", network := some "tcp", vtype := some "none",
    host := some "", path := some "", tls := some "tls",
    sni := some "vmess.example.com", alpn := some "" }

def vmessExampleInfo : ProxyNodeInfo :=
  { name := "vmess-example", proto := "vmess", server := "vmess.example.com",
    port := 443, extra_info := some vmessExampleExtra }

/-! ## The verification pipeline (src/check/mod.rs)

Each network probe is a non-deterministic effect; a `ProbeEnv` oracle fixes
each probe's outcome for one worker, and the shared atomic `Stats` object is
modelled by the ordered list of counter updates the worker performs. -/

structure MediaUnlockResult where
  youtube : Bool
  netflix : Bool
  disney : Bool
  openai : Bool
  google : Bool
  cloudflare : Bool
  tiktok : Bool
  gemini : Bool
deriving DecidableEq

/-- `impl Default for MediaUnlockResult`: all eight services false. -/
def MediaUnlockResult.default : MediaUnlockResult :=
  ⟨false, false, false, false, false, false, false, false⟩

structure CheckResult where
  proxy : ProxyNode
  is_alive : Bool
  latency : Option Nat
  speed : Option ℚ
  media_unlock : MediaUnlockResult
  country : Option String
  country_code : Option String
  ip : Option String
  ip_risk : Option String
  is_cf_accessible : Bool
  cf_location : Option String
  cf_ip : Option String
deriving DecidableEq

/-- The fields of `Config` (src/config/mod.rs) that the verification
pipeline reads. -/
structure Config where
  timeout : Nat
  success_limit : Nat
  min_speed : ℚ
  speed_test_url : Option String
  media_check : Bool
  drop_bad_cf_nodes : Bool
deriving DecidableEq

def Config.is_speed_test_enabled (c : Config) : Bool := c.speed_test_url.isSome

def Config.is_media_check_enabled (c : Config) : Bool := c.media_check

/-- Outcome oracle for one worker's network probes.  `clientOk` is whether
`create_http_client` accepts the node's proxy URL; a probe whose field is
`none` returned Err (downgraded to false by unwrap_or in the source). -/
structure ProbeEnv where
  clientOk : Bool := true
  latencyMs : Nat := 0
  aliveProbe : Option Bool := none
  cfProbe : Option (Bool × Option String × Option String) := none
  speedProbe : Option (ℚ × Nat) := none
  youtubeProbe : Option Bool := none
  netflixProbe : Option Bool := none
  disneyProbe : Option Bool := none
  openaiProbe : Option Bool := none
  googleProbe : Option Bool := none
  tiktokProbe : Option Bool := none
  geminiProbe : Option Bool := none
deriving DecidableEq

/-- One update to the shared `Stats` counters. -/
inductive StatEvent where
  | incAlive
  | incChecked
  | incFailed
  | addBytes (n : Nat)
deriving DecidableEq

def countAlive : List StatEvent → Nat
  | [] => 0
  | StatEvent.incAlive :: rest => countAlive rest + 1
  | _ :: rest => countAlive rest

def countChecked : List StatEvent → Nat
  | [] => 0
  | StatEvent.incChecked :: rest => countChecked rest + 1
  | _ :: rest => countChecked rest

def countFailed : List StatEvent → Nat
  | [] => 0
  | StatEvent.incFailed :: rest => countFailed rest + 1
  | _ :: rest => countFailed rest

/-- The dead result record, as both early-return sites of
`check_single_proxy` build it (field for field). -/
def deadResult (proxy : ProxyNode) (latency : Option Nat) : CheckResult :=
  { proxy, is_alive := false, latency, speed := none,
    media_unlock := MediaUnlockResult.default, country := none,
    country_code := none, ip := none, ip_risk := none,
    is_cf_accessible := false, cf_location := none, cf_ip := none }

/-- `check_single_proxy`: the worker's result (`none` when
create_http_client fails — the `?` propagates the error before any counter
is touched, and the spawned task only logs it) together with the Stats
updates the worker performs, in program order. -/
def check_single_proxy (env : ProbeEnv) (config : Config) (proxy : ProxyNode) :
    Option CheckResult × List StatEvent :=
  if env.clientOk = false then (none, [])
  else
    let is_alive := env.aliveProbe.getD false
    let latency := some env.latencyMs
    if is_alive = false then
      (some (deadResult proxy latency),
        [StatEvent.incFailed, StatEvent.incChecked])
    else
      let cf := env.cfProbe.getD (false, none, none)
      let is_cf_accessible := cf.1
      let cf_location := cf.2.1
      let cf_ip := cf.2.2
      if config.drop_bad_cf_nodes = true ∧ is_cf_accessible = false then
        (some (deadResult proxy latency),
          [StatEvent.incAlive, StatEvent.incFailed, StatEvent.incChecked])
      else
        let speed : Option ℚ :=
          if config.is_speed_test_enabled = true then
            match config.speed_test_url with
            | some _ =>
              match env.speedProbe with
              | some sp => if sp.1 ≥ config.min_speed then some sp.1 else none
              | none => none
            | none => none
          else none
        let bytesEvents : List StatEvent :=
          if config.is_speed_test_enabled = true then
            match config.speed_test_url, env.speedProbe with
            | some _, some sp => [StatEvent.addBytes sp.2]
            | _, _ => []
          else []
        let media_unlock :=
          if config.is_media_check_enabled = true then
            { youtube := env.youtubeProbe.getD false,
              netflix := env.netflixProbe.getD false,
              disney := env.disneyProbe.getD false,
              openai := env.openaiProbe.getD false,
              google := env.googleProbe.getD false,
              cloudflare := is_cf_accessible,
              tiktok := env.tiktokProbe.getD false,
              gemini := env.geminiProbe.getD false }
          else MediaUnlockResult.default
        (some { proxy, is_alive := true, latency, speed, media_unlock,
                country := cf_location, country_code := none, ip := cf_ip,
                ip_risk := none, is_cf_accessible, cf_location, cf_ip },
          [StatEvent.incAlive] ++ bytesEvents ++ [StatEvent.incChecked])

/-- `results.iter().filter(|r| r.is_alive).count()`. -/
def countAliveRes (rs : List CheckResult) : Nat :=
  (rs.filter (fun r => r.is_alive)).length

/-- The collector loop of `check_proxies`: push each received result and,
when success_limit > 0, break as soon as the accumulated alive count
reaches it. -/
def collectLoop (limit : Nat) (acc : List CheckResult) :
    List CheckResult → List CheckResult
  | [] => acc
  | r :: rest =>
    let acc2 := acc ++ [r]
    if 0 < limit ∧ limit ≤ countAliveRes acc2 then acc2
    else collectLoop limit acc2 rest

/-- The multiset of results actually sent into the channel: one per worker
whose `check_single_proxy` returned Ok; Err workers send nothing. -/
def sentResults (config : Config) (inputs : List (ProxyNode × ProbeEnv)) :
    List CheckResult :=
  inputs.filterMap (fun pe => (check_single_proxy pe.2 config pe.1).1)

/-- `ProxyChecker::check_proxies`, parameterized by the channel arrival
order of the workers' results (completion order is non-deterministic;
theorems relate `arrived` to `sentResults` by permutation). -/
def check_proxies (config : Config) (arrived : List CheckResult) :
    List CheckResult :=
  collectLoop config.success_limit [] arrived

/-- Concrete configurations and probe environments for witnesses. -/
def cfgNoLimit : Config :=
  { timeout := 6000, success_limit := 0, min_speed := 128,
    speed_test_url := none, media_check := false, drop_bad_cf_nodes := false }

def cfgLimit2 : Config :=
  { timeout := 6000, success_limit := 2, min_speed := 128,
    speed_test_url := none, media_check := false, drop_bad_cf_nodes := false }

def cfgDrop : Config :=
  { timeout := 6000, success_limit := 0, min_speed := 128,
    speed_test_url := none, media_check := false, drop_bad_cf_nodes := true }

/-- create_http_client rejects the node's proxy URL (e.g. a vmess:// scheme,
which reqwest's Proxy::all does not accept). -/
def envNoClient : ProbeEnv := { clientOk := false }

/-- Liveness probe answers, but not with 204. -/
def envDead : ProbeEnv := { latencyMs := 5, aliveProbe := some false }

/-- Liveness succeeds but the Cloudflare trace is unreachable. -/
def envAliveCfFail : ProbeEnv :=
  { latencyMs := 5, aliveProbe := some true, cfProbe := some (false, none, none) }

/-- Everything succeeds. -/
def envAliveOk : ProbeEnv :=
  { latencyMs := 5, aliveProbe := some true,
    cfProbe := some (true, some "US", some "1.1.1.1") }

/-- A concrete alive result record (as produced by envAliveOk under
cfgLimit2 semantics). -/
def aliveRes : CheckResult :=
  { proxy := nodeA, is_alive := true, latency := some 5, speed := none,
    media_unlock := MediaUnlockResult.default, country := some "US",
    country_code := none, ip := some "1.1.1.1", ip_risk := none,
    is_cf_accessible := true, cf_location := some "US",
    cf_ip := some "1.1.1.1" }

/-! ## Locality shuffle (`smart_shuffle_proxies`, src/proxy/mod.rs)

The `thread_rng` shuffle is non-deterministic; an oracle supplies round r's
shuffled arrangement of the current list, and theorems assume only that it
permutes its input. -/

/-- Placeholder for the (always in-bounds) list indexing of the shuffle;
every index the loops produce is below the list length, so the value is
never used. -/
def dummyNode : ProxyNode :=
  { name := "", server := "", port := 0, protocol := "" }

/-- The forward search `(j + 1..proxies.len()).find(...)` for a swap target
proximate to neither the i-th nor the j-th node. -/
def findSwap (l : List ProxyNode) (threshold : ℚ) (i j : Nat) : Option Nat :=
  (List.range' (j + 1) (l.length - (j + 1))).find? (fun k =>
    !(is_same_cidr (l.getD i dummyNode) (l.getD k dummyNode) threshold) &&
    !(is_same_cidr (l.getD j dummyNode) (l.getD k dummyNode) threshold))

/-- `proxies.swap(j, k)`. -/
def swapL (l : List ProxyNode) (j k : Nat) : List ProxyNode :=
  (l.set j (l.getD k dummyNode)).set k (l.getD j dummyNode)

/-- The body of the inner j-loop: when the i-th and j-th nodes are in the
same proximity class, swap j with the first admissible k after it. -/
def adjustStep (threshold : ℚ) (i : Nat) (l : List ProxyNode) (j : Nat) :
    List ProxyNode :=
  if is_same_cidr (l.getD i dummyNode) (l.getD j dummyNode) threshold then
    match findSwap l threshold i j with
    | some k => swapL l j k
    | none => l
  else l

/-- The inner loop: j ranges over (i + 1)..min(len, i + min_spacing). -/
def adjustInner (threshold : ℚ) (min_spacing i : Nat) (l : List ProxyNode) :
    List ProxyNode :=
  (List.range' (i + 1) (min l.length (i + min_spacing) - (i + 1))).foldl
    (adjustStep threshold i) l

/-- One full adjustment pass: i ranges over 0..len. -/
def adjustRound (threshold : ℚ) (min_spacing : Nat) (l : List ProxyNode) :
    List ProxyNode :=
  (List.range l.length).foldl
    (fun acc i => adjustInner threshold min_spacing i acc) l

/-- `smart_shuffle_proxies`: no-op at or below min_spacing, otherwise three
rounds of shuffle-then-adjust. -/
def smart_shuffle_proxies
    (shuffleOracle : Nat → List ProxyNode → List ProxyNode)
    (proxies : List ProxyNode) (threshold : ℚ) (min_spacing : Nat) :
    List ProxyNode :=
  if proxies.length ≤ min_spacing then proxies
  else
    (List.range 3).foldl
      (fun acc r => adjustRound threshold min_spacing (shuffleOracle r acc))
      proxies

/-- The identity arrangement, a trivially legitimate shuffle outcome. -/
def idOracle : Nat → List ProxyNode → List ProxyNode := fun _ l => l

/-! # Theorems -/

/-! ## Digit and octet lemmas -/

theorem digitVal_lt_ten {c : Char} (h : isDigitChar c = true) : digitVal c < 10 := by
  unfold isDigitChar at h
  simp only [Bool.and_eq_true, decide_eq_true_eq] at h
  unfold digitVal
  omega

theorem char_toNat_inj {c d : Char} (h : c.toNat = d.toNat) : c = d := by
  have hc := Char.ofNat_toNat c
  have hd := Char.ofNat_toNat d
  rw [← hc, ← hd, h]

theorem digitVal_inj {c d : Char} (hc : isDigitChar c = true) (hd : isDigitChar d = true)
    (h : digitVal c = digitVal d) : c = d := by
  unfold isDigitChar at hc hd
  simp only [Bool.and_eq_true, decide_eq_true_eq] at hc hd
  unfold digitVal at h
  exact char_toNat_inj (by omega)

theorem splitOnChar_ne_nil (sep : Char) (l : List Char) : splitOnChar sep l ≠ [] := by
  cases l with
  | nil => simp [splitOnChar]
  | cons c cs =>
    unfold splitOnChar
    by_cases h : c = sep
    · simp [h]
    · simp only [h, if_false]
      cases splitOnChar sep cs with
      | nil => simp
      | cons p ps => simp

theorem joinWithChar_splitOnChar (sep : Char) (l : List Char) :
    joinWithChar sep (splitOnChar sep l) = l := by
  induction l with
  | nil => rfl
  | cons c cs ih =>
    unfold splitOnChar
    by_cases h : c = sep
    · simp only [h, if_true]
      cases hs : splitOnChar sep cs with
      | nil => exact absurd hs (splitOnChar_ne_nil sep cs)
      | cons p ps =>
        rw [hs] at ih
        simp [joinWithChar, ih, h]
    · simp only [h, if_false]
      cases hs : splitOnChar sep cs with
      | nil => exact absurd hs (splitOnChar_ne_nil sep cs)
      | cons p ps =>
        rw [hs] at ih
        cases ps with
        | nil => simp_all [joinWithChar]
        | cons q qs => simp_all [joinWithChar]

theorem parseOctet_eq_some {l : List Char} {n : Nat} (h : parseOctet l = some n) :
    l ≠ [] ∧ l.all isDigitChar = true ∧ ¬ (1 < l.length ∧ l.head? = some '0') ∧
      Nat.ofDigits 10 (l.map digitVal).reverse = n ∧ n ≤ 255 := by
  unfold parseOctet at h
  by_cases h1 : l = []
  · simp [h1] at h
  · rw [if_neg h1] at h
    by_cases h2 : l.all isDigitChar = true
    · rw [if_neg (by simp [h2])] at h
      by_cases h3 : 1 < l.length ∧ l.head? = some '0'
      · rw [if_pos h3] at h; cases h
      · rw [if_neg h3] at h
        by_cases h4 : Nat.ofDigits 10 (l.map digitVal).reverse ≤ 255
        · simp only [h4, if_pos] at h
          have hn : Nat.ofDigits 10 (l.map digitVal).reverse = n := by
            simpa using h
          exact ⟨h1, h2, h3, hn, by omega⟩
        · simp [h4] at h
    · simp [h2] at h

theorem parseOctet_inj {l₁ l₂ : List Char} {n : Nat}
    (h₁ : parseOctet l₁ = some n) (h₂ : parseOctet l₂ = some n) : l₁ = l₂ := by
  obtain ⟨hne₁, hdig₁, hlz₁, hval₁, _⟩ := parseOctet_eq_some h₁
  obtain ⟨hne₂, hdig₂, hlz₂, hval₂, _⟩ := parseOctet_eq_some h₂
  -- the reversed digit-value list of an accepted octet string is recovered by Nat.digits
  have key : ∀ l : List Char, l ≠ [] → l.all isDigitChar = true →
      ¬ (1 < l.length ∧ l.head? = some '0') →
      ∀ m, Nat.ofDigits 10 (l.map digitVal).reverse = m →
      (m = 0 → l = ['0']) ∧ (m ≠ 0 → Nat.digits 10 m = (l.map digitVal).reverse) := by
    intro l hne hdig hlz m hval
    have hall : ∀ x ∈ (l.map digitVal).reverse, x < 10 := by
      intro x hx
      rw [List.mem_reverse, List.mem_map] at hx
      obtain ⟨c, hc, hcx⟩ := hx
      have := List.all_eq_true.mp hdig c hc
      exact hcx ▸ digitVal_lt_ten this
    cases l with
    | nil => exact absurd rfl hne
    | cons c cs =>
      by_cases hcs : cs = []
      · subst hcs
        constructor
        · intro hm
          have hc : isDigitChar c = true := by
            have := List.all_eq_true.mp hdig c (by simp)
            exact this
          have : digitVal c = 0 := by
            simp only [List.map, List.reverse_singleton, Nat.ofDigits] at hval
            simpa [hm] using hval
          have : c = '0' := digitVal_inj hc (by decide) (by simpa using this)
          simp [this]
        · intro hm
          rw [← hval]
          rw [Nat.digits_ofDigits 10 (by norm_num) _ hall]
          intro hne'
          simp only [List.map, List.reverse_singleton] at hne' ⊢
          intro hlast
          -- last digit (the leading character) is zero: c = '0', so m = 0
          simp only [List.getLast_singleton] at hlast
          have hc : isDigitChar c = true := List.all_eq_true.mp hdig c (by simp)
          have : c = '0' := digitVal_inj hc (by decide) (by simpa using hlast)
          apply hm
          rw [← hval]
          simp [this, Nat.ofDigits, digitVal]
      · -- at least two characters: leading character is not '0'
        have hlen : 1 < (c :: cs).length := by
          cases cs with
          | nil => exact absurd rfl hcs
          | cons d ds => simp
        have hc0 : c ≠ '0' := by
          intro hc
          exact hlz ⟨hlen, by simp [hc]⟩
        have hc : isDigitChar c = true := List.all_eq_true.mp hdig c (by simp)
        have hlastne : ((c :: cs).map digitVal).reverse.getLast
            (by simp) ≠ 0 := by
          have hgl : ((c :: cs).map digitVal).reverse.getLast (by simp) =
              digitVal c := by
            rw [List.getLast_reverse]
            simp
          rw [hgl]
          intro h0
          exact hc0 (digitVal_inj hc (by decide) (by simpa using h0))
        have hdg : Nat.digits 10 m = ((c :: cs).map digitVal).reverse := by
          rw [← hval]
          rw [Nat.digits_ofDigits 10 (by norm_num) _ hall]
          intro _; exact hlastne
        constructor
        · intro hm
          rw [hm] at hdg
          simp only [Nat.digits_zero] at hdg
          have : ((c :: cs).map digitVal).reverse ≠ [] := by simp
          exact absurd hdg.symm this
        · intro _; exact hdg
  have k₁ := key l₁ hne₁ hdig₁ hlz₁ n hval₁
  have k₂ := key l₂ hne₂ hdig₂ hlz₂ n hval₂
  by_cases hn : n = 0
  · rw [k₁.1 hn, k₂.1 hn]
  · have e : (l₁.map digitVal).reverse = (l₂.map digitVal).reverse := by
      rw [← k₁.2 hn, ← k₂.2 hn]
    have e2 : l₁.map digitVal = l₂.map digitVal := by
      have := congrArg List.reverse e
      simpa using this
    -- recover the character lists from the digit-value lists
    clear k₁ k₂ hval₁ hval₂ hlz₁ hlz₂ hne₁ hne₂ h₁ h₂ e hn
    induction l₁ generalizing l₂ with
    | nil => cases l₂ with
      | nil => rfl
      | cons d ds => simp at e2
    | cons c cs ih =>
      cases l₂ with
      | nil => simp at e2
      | cons d ds =>
        simp only [List.map, List.cons.injEq] at e2
        simp only [List.all_cons, Bool.and_eq_true] at hdig₁ hdig₂
        have hcd : c = d := digitVal_inj hdig₁.1 hdig₂.1 e2.1
        rw [hcd, ih hdig₁.2 hdig₂.2 e2.2]

theorem parseIPv4_eq_some {s : List Char} {t : Nat × Nat × Nat × Nat}
    (h : parseIPv4 s = some t) :
    ∃ a b c d, splitOnChar '.' s = [a, b, c, d] ∧
      parseOctet a = some t.1 ∧ parseOctet b = some t.2.1 ∧
      parseOctet c = some t.2.2.1 ∧ parseOctet d = some t.2.2.2 := by
  unfold parseIPv4 at h
  revert h
  cases hs : splitOnChar '.' s with
  | nil => intro h; cases h
  | cons a r => cases r with
    | nil => intro h; cases h
    | cons b r => cases r with
      | nil => intro h; cases h
      | cons c r => cases r with
        | nil => intro h; cases h
        | cons d r => cases r with
          | cons _ _ => intro h; cases h
          | nil =>
            intro h
            simp only [bind, Option.bind_eq_some, Option.pure_def,
              Option.some.injEq] at h
            obtain ⟨x, hx, y, hy, z, hz, w, hw, ht⟩ := h
            refine ⟨a, b, c, d, rfl, ?_, ?_, ?_, ?_⟩ <;> rw [← ht] <;>
              assumption

theorem parseIPv4_inj {s₁ s₂ : List Char} {t : Nat × Nat × Nat × Nat}
    (h₁ : parseIPv4 s₁ = some t) (h₂ : parseIPv4 s₂ = some t) : s₁ = s₂ := by
  obtain ⟨a₁, b₁, c₁, d₁, hs₁, ha₁, hb₁, hc₁, hd₁⟩ := parseIPv4_eq_some h₁
  obtain ⟨a₂, b₂, c₂, d₂, hs₂, ha₂, hb₂, hc₂, hd₂⟩ := parseIPv4_eq_some h₂
  have hsplit : splitOnChar '.' s₁ = splitOnChar '.' s₂ := by
    rw [hs₁, hs₂, parseOctet_inj ha₁ ha₂, parseOctet_inj hb₁ hb₂,
      parseOctet_inj hc₁ hc₂, parseOctet_inj hd₁ hd₂]
  calc s₁ = joinWithChar '.' (splitOnChar '.' s₁) :=
        (joinWithChar_splitOnChar '.' s₁).symm
    _ = joinWithChar '.' (splitOnChar '.' s₂) := by rw [hsplit]
    _ = s₂ := joinWithChar_splitOnChar '.' s₂

theorem get_ip_address_v4 {s : String} {a b c d : Nat}
    (h : get_ip_address s = some (IpAddrM.v4 a b c d)) :
    parseIPv4 s.data = some (a, b, c, d) := by
  unfold get_ip_address at h
  revert h
  cases hp : parseIPv4 s.data with
  | none =>
    intro h
    by_cases h6 : isIPv6 s.data <;> simp [h6] at h
  | some t =>
    obtain ⟨x, y, z, w⟩ := t
    intro h
    simp only [Option.some.injEq, IpAddrM.v4.injEq] at h
    obtain ⟨e1, e2, e3, e4⟩ := h
    rw [e1, e2, e3, e4]

theorem get_ip_address_v4_server_inj {s₁ s₂ : String} {a b c d : Nat}
    (h₁ : get_ip_address s₁ = some (IpAddrM.v4 a b c d))
    (h₂ : get_ip_address s₂ = some (IpAddrM.v4 a b c d)) : s₁ = s₂ := by
  have p₁ := get_ip_address_v4 h₁
  have p₂ := get_ip_address_v4 h₂
  exact String.ext (parseIPv4_inj p₁ p₂)

/-! ## Claim C5 -/

/-- Claim C5 (corrected): for nodes whose servers both parse as IPv4, the
proximity relation holds at threshold ≥ 1.0 iff the hosts are
character-identical, at [0.75, 1.0) iff the first three octets agree, at
[0.5, 0.75) iff the first two agree, and at [0.25, 0.5) iff the first
agrees.  Hosts that both parse as IPv6 fall back to exact string equality.
In every remaining case — either host unparseable as an IP address, or one
IPv4 and the other IPv6 — is_same_cidr returns false (it does NOT fall back
to string equality, contrary to the claim as stated). -/
theorem C5_is_same_cidr_laws :
    (∀ (p q : ProxyNode) (a₁ b₁ c₁ d₁ a₂ b₂ c₂ d₂ : Nat) (th : ℚ),
      get_ip_address p.server = some (IpAddrM.v4 a₁ b₁ c₁ d₁) →
      get_ip_address q.server = some (IpAddrM.v4 a₂ b₂ c₂ d₂) →
      ((1 ≤ th → (is_same_cidr p q th = true ↔ p.server = q.server)) ∧
       (3/4 ≤ th → th < 1 →
         (is_same_cidr p q th = true ↔ a₁ = a₂ ∧ b₁ = b₂ ∧ c₁ = c₂)) ∧
       (1/2 ≤ th → th < 3/4 →
         (is_same_cidr p q th = true ↔ a₁ = a₂ ∧ b₁ = b₂)) ∧
       (1/4 ≤ th → th < 1/2 →
         (is_same_cidr p q th = true ↔ a₁ = a₂)))) ∧
    (∀ (p q : ProxyNode) (th : ℚ),
      get_ip_address p.server = some IpAddrM.v6 →
      get_ip_address q.server = some IpAddrM.v6 →
      (is_same_cidr p q th = true ↔ p.server = q.server)) ∧
    (∀ (p q : ProxyNode) (th : ℚ),
      get_ip_address p.server = none → is_same_cidr p q th = false) ∧
    (∀ (p q : ProxyNode) (th : ℚ),
      get_ip_address q.server = none → is_same_cidr p q th = false) ∧
    (∀ (p q : ProxyNode) (a b c d : Nat) (th : ℚ),
      get_ip_address p.server = some (IpAddrM.v4 a b c d) →
      get_ip_address q.server = some IpAddrM.v6 → is_same_cidr p q th = false) ∧
    (∀ (p q : ProxyNode) (a b c d : Nat) (th : ℚ),
      get_ip_address p.server = some IpAddrM.v6 →
      get_ip_address q.server = some (IpAddrM.v4 a b c d) →
      is_same_cidr p q th = false) := by
  refine ⟨?_, ?_, ?_, ?_, ?_, ?_⟩
  · intro p q a₁ b₁ c₁ d₁ a₂ b₂ c₂ d₂ th hp hq
    unfold is_same_cidr
    rw [hp, hq]
    dsimp only
    refine ⟨?_, ?_, ?_, ?_⟩
    · intro h1
      rw [if_pos h1]
      simp only [decide_eq_true_eq]
      constructor
      · rintro ⟨ea, eb, ec, ed⟩
        subst ea eb ec ed
        exact get_ip_address_v4_server_inj hp hq
      · intro hs
        rw [hs] at hp
        rw [hp] at hq
        injection hq with hq
        injection hq with e1 e2 e3 e4
        exact ⟨e1, e2, e3, e4⟩
    · intro h34 hlt1
      rw [if_neg (not_le.mpr hlt1), if_pos h34]
      simp
    · intro h12 hlt34
      rw [if_neg (not_le.mpr (lt_trans hlt34 (by norm_num))),
        if_neg (not_le.mpr hlt34), if_pos h12]
      simp
    · intro h14 hlt12
      rw [if_neg (not_le.mpr (lt_trans hlt12 (by norm_num))),
        if_neg (not_le.mpr (lt_trans hlt12 (by norm_num))),
        if_neg (not_le.mpr hlt12), if_pos h14]
      simp
  · intro p q th hp hq
    unfold is_same_cidr
    rw [hp, hq]
    dsimp only
    exact beq_iff_eq
  · intro p q th hp
    unfold is_same_cidr
    rw [hp]
  · intro p q th hq
    unfold is_same_cidr
    rw [hq]
    rcases get_ip_address p.server with _ | v
    · rfl
    · rcases v with ⟨a, b, c, d⟩ | _ <;> rfl
  · intro p q a b c d th hp hq
    unfold is_same_cidr
    rw [hp, hq]
  · intro p q a b c d th hp hq
    unfold is_same_cidr
    rw [hp, hq]

/-- Counterexample to claim C5 as stated: two nodes with the identical,
unparseable host "not-an-ip".  The claimed fallback to exact string equality
would make them proximate, but is_same_cidr returns false. -/
theorem C5_counterexample :
    is_same_cidr fooNode fooNode (1/2) = false ∧
      fooNode.server = fooNode.server := by
  constructor
  · decide
  · rfl

/-- Witness for C5: the concrete IPv4 nodes 10.1.2.3 and 10.1.2.9 at
threshold 0.75 are proximate (first three octets agree) but not at
threshold 1. -/
theorem C5_witness :
    get_ip_address nodeA.server = some (IpAddrM.v4 10 1 2 3) ∧
      get_ip_address nodeB.server = some (IpAddrM.v4 10 1 2 9) ∧
      is_same_cidr nodeA nodeB (3/4) = true ∧
      is_same_cidr nodeA nodeB 1 = false := by
  have hA : get_ip_address nodeA.server = some (IpAddrM.v4 10 1 2 3) := by decide
  have hB : get_ip_address nodeB.server = some (IpAddrM.v4 10 1 2 9) := by decide
  refine ⟨hA, hB, ?_, ?_⟩
  · exact (((C5_is_same_cidr_laws.1 nodeA nodeB 10 1 2 3 10 1 2 9 (3/4)
      hA hB).2.1 (by norm_num) (by norm_num)).mpr ⟨rfl, rfl, rfl⟩)
  · have := (C5_is_same_cidr_laws.1 nodeA nodeB 10 1 2 3 10 1 2 9 1 hA hB).1
      (by norm_num)
    rcases h : is_same_cidr nodeA nodeB 1 with _ | _
    · rfl
    · have hs : nodeA.server = nodeB.server := this.mp h
      exact absurd hs (by decide)

/-! ## Base64 round-trip -/

theorem b64Val_b64Char : ∀ n, n < 64 → b64Val (b64Char n) = some n := by decide

theorem b64Val_pad : b64Val '=' = none := by decide

theorem b64Decode_b64Encode : ∀ l : List Nat, (∀ b ∈ l, b < 256) →
    b64Decode (b64Encode l) = some l
  | [], _ => rfl
  | [a], h => by
    have ha : a < 256 := h a (by simp)
    have e : b64Encode [a] = [b64Char (a / 4), b64Char (a % 4 * 16), '=', '='] := rfl
    rw [e]
    simp only [b64Decode]
    rw [b64Val_b64Char _ (by omega), b64Val_b64Char _ (by omega), b64Val_pad]
    dsimp only
    rw [if_pos (by simp)]
    simp only [Option.some.injEq, List.cons.injEq, and_true]
    omega
  | [a, b], h => by
    have ha : a < 256 := h a (by simp)
    have hb : b < 256 := h b (by simp)
    have e : b64Encode [a, b] =
        [b64Char (a / 4), b64Char (a % 4 * 16 + b / 16), b64Char (b % 16 * 4), '='] := rfl
    rw [e]
    simp only [b64Decode]
    rw [b64Val_b64Char _ (by omega), b64Val_b64Char _ (by omega),
      b64Val_b64Char _ (by omega), b64Val_pad]
    dsimp only
    rw [if_pos (by simp)]
    simp only [Option.some.injEq, List.cons.injEq, and_true]
    constructor <;> omega
  | a :: b :: c :: rest, h => by
    have ha : a < 256 := h a (by simp)
    have hb : b < 256 := h b (by simp)
    have hc : c < 256 := h c (by simp)
    have ih := b64Decode_b64Encode rest
      (fun x hx => h x (by simp [hx]))
    have e : b64Encode (a :: b :: c :: rest) =
        b64Char (a / 4) :: b64Char (a % 4 * 16 + b / 16) ::
          b64Char (b % 16 * 4 + c / 64) :: b64Char (c % 64) ::
          b64Encode rest := rfl
    rw [e]
    simp only [b64Decode]
    rw [b64Val_b64Char _ (by omega), b64Val_b64Char _ (by omega),
      b64Val_b64Char _ (by omega), b64Val_b64Char _ (by omega)]
    dsimp only
    rw [ih]
    simp only [Option.some.injEq, List.cons.injEq]
    refine ⟨by omega, by omega, by omega, trivial⟩

theorem char_toNat_lt (c : Char) : c.toNat < 1114112 := by
  have h := c.valid
  unfold UInt32.isValidChar Nat.isValidChar at h
  have e : c.toNat = c.val.toNat := rfl
  rcases h with h | ⟨h1, h2⟩ <;> omega

theorem utf8Char_lt_256 {n : Nat} (hn : n < 1114112) : ∀ b ∈ utf8Char n, b < 256 := by
  intro b hb
  unfold utf8Char at hb
  split_ifs at hb with h1 h2 h3 <;> simp only [List.mem_cons, List.mem_singleton,
    List.not_mem_nil, or_false] at hb
  · omega
  · rcases hb with rfl | rfl <;> omega
  · rcases hb with rfl | rfl | rfl <;> omega
  · rcases hb with rfl | rfl | rfl | rfl <;> omega

theorem utf8_lt_256 (s : List Char) : ∀ b ∈ utf8 s, b < 256 := by
  intro b hb
  unfold utf8 at hb
  rw [List.mem_flatten] at hb
  obtain ⟨l, hl, hbl⟩ := hb
  rw [List.mem_map] at hl
  obtain ⟨c, _, rfl⟩ := hl
  exact utf8Char_lt_256 (char_toNat_lt c) b hbl

/-- The complete round trip of `STANDARD.encode` on a Rust string: decoding
the base64 text recovers exactly the string's UTF-8 bytes. -/
theorem b64_roundtrip (s : String) :
    b64Decode (encodeStd s).data = some (utf8 s.data) := by
  unfold encodeStd b64EncodeStr
  exact b64Decode_b64Encode (utf8 s.data) (utf8_lt_256 s.data)

/-! ## URL builder branch analysis -/

theorem http_url_not_unsupported (info : ProxyNodeInfo) (t : String) :
    build_http_proxy_url info ≠ Except.error (BuildError.unsupportedProtocol t) := by
  intro h
  unfold build_http_proxy_url at h
  try simp only [ne_eq] at h
  repeat' split at h
  all_goals simp at h

theorem socks_url_not_unsupported (info : ProxyNodeInfo) (t : String) :
    build_socks_proxy_url info ≠ Except.error (BuildError.unsupportedProtocol t) := by
  intro h
  unfold build_socks_proxy_url at h
  try simp only [ne_eq] at h
  repeat' split at h
  all_goals simp at h

theorem ss_url_not_unsupported (info : ProxyNodeInfo) (t : String) :
    build_shadowsocks_url info ≠ Except.error (BuildError.unsupportedProtocol t) := by
  intro h
  unfold build_shadowsocks_url at h
  try simp only [ne_eq] at h
  repeat' split at h
  all_goals simp at h

theorem vmess_url_not_unsupported (info : ProxyNodeInfo) (t : String) :
    build_vmess_url info ≠ Except.error (BuildError.unsupportedProtocol t) := by
  intro h
  unfold build_vmess_url at h
  try simp only [ne_eq] at h
  repeat' split at h
  all_goals simp at h

theorem vless_url_not_unsupported (info : ProxyNodeInfo) (t : String) :
    build_vless_url info ≠ Except.error (BuildError.unsupportedProtocol t) := by
  intro h
  unfold build_vless_url at h
  try simp only [ne_eq] at h
  repeat' split at h
  all_goals simp at h

theorem trojan_url_not_unsupported (info : ProxyNodeInfo) (t : String) :
    build_trojan_url info ≠ Except.error (BuildError.unsupportedProtocol t) := by
  intro h
  unfold build_trojan_url at h
  try simp only [ne_eq] at h
  repeat' split at h
  all_goals simp at h

theorem ssr_url_not_unsupported (info : ProxyNodeInfo) (t : String) :
    build_ssr_url info ≠ Except.error (BuildError.unsupportedProtocol t) := by
  intro h
  unfold build_ssr_url at h
  try simp only [ne_eq] at h
  repeat' split at h
  all_goals simp at h

theorem hysteria_url_not_unsupported (info : ProxyNodeInfo) (t : String) :
    build_hysteria_url info ≠ Except.error (BuildError.unsupportedProtocol t) := by
  intro h
  unfold build_hysteria_url at h
  simp at h

theorem tuic_url_not_unsupported (info : ProxyNodeInfo) (t : String) :
    build_tuic_url info ≠ Except.error (BuildError.unsupportedProtocol t) := by
  intro h
  unfold build_tuic_url at h
  try simp only [ne_eq] at h
  repeat' split at h
  all_goals simp at h

theorem wireguard_url_not_unsupported (info : ProxyNodeInfo) (t : String) :
    build_wireguard_url info ≠ Except.error (BuildError.unsupportedProtocol t) := by
  intro h
  unfold build_wireguard_url at h
  simp at h

/-! ## Claim C6 -/

/-- Claim C6: the spec's Shadowsocks example yields exactly
"ss://aes-256-gcm:secret@ss.example.com:8388", and for every Shadowsocks
node with a password but no method field the builder behaves exactly as if
the method were the fixed cipher "aes-256-gcm". -/
theorem C6_shadowsocks_url :
    build_shadowsocks_url ssExampleInfo =
      Except.ok "ss://aes-256-gcm:secret@ss.example.com:8388" ∧
    (∀ (info : ProxyNodeInfo) (ei : ExtraInfo), info.extra_info = some ei →
      ei.method = none → ei.password.isSome = true →
      build_shadowsocks_url info =
        build_shadowsocks_url
          { info with extra_info := some { ei with method := some "aes-256-gcm" } }) := by
  constructor
  · rfl
  · intro info ei hei hm hp
    cases hpw : ei.password with
    | none => rw [hpw] at hp; cases hp
    | some pw =>
      unfold build_shadowsocks_url
      rw [hei]
      simp only [hm, hpw]
      rfl

/-- Witness for C6: the method-less example node builds the same string as
the explicit aes-256-gcm example node. -/
theorem C6_witness :
    build_shadowsocks_url ssNoMethodInfo = build_shadowsocks_url ssExampleInfo ∧
      build_shadowsocks_url ssNoMethodInfo =
        Except.ok "ss://aes-256-gcm:secret@ss.example.com:8388" := by
  have h := C6_shadowsocks_url.2 ssNoMethodInfo ssNoMethodExtra rfl rfl rfl
  exact ⟨h.trans rfl, h.trans rfl⟩

/-! ## Claim C7 -/

/-- Claim C7: build_proxy_url fails with the unsupported-protocol error,
carrying the offending tag, exactly on protocol tags outside the fixed
supported set; on tags inside the set it never takes that error branch
(its sub-builders may fail, but only with other error shapes). -/
theorem C7_unsupported_protocol :
    (∀ info : ProxyNodeInfo, info.proto ∉ hcSupportedProtocols →
      build_proxy_url info =
        Except.error (BuildError.unsupportedProtocol info.proto)) ∧
    (∀ info : ProxyNodeInfo, info.proto ∈ hcSupportedProtocols →
      ∀ t, build_proxy_url info ≠
        Except.error (BuildError.unsupportedProtocol t)) := by
  constructor
  · intro info h
    simp only [hcSupportedProtocols, List.mem_cons, List.not_mem_nil, or_false,
      not_or] at h
    obtain ⟨h1, h2, h3, h4, h5, h6, h7, h8, h9, h10, h11, h12⟩ := h
    unfold build_proxy_url
    rw [if_neg (by tauto), if_neg (by tauto), if_neg h5, if_neg h6, if_neg h7,
      if_neg h8, if_neg h9, if_neg h10, if_neg h11, if_neg h12]
  · intro info hmem t heq
    unfold build_proxy_url at heq
    split_ifs at heq with h1 h2 h3 h4 h5 h6 h7 h8 h9 h10
    · exact http_url_not_unsupported info t heq
    · exact socks_url_not_unsupported info t heq
    · exact ss_url_not_unsupported info t heq
    · exact vmess_url_not_unsupported info t heq
    · exact vless_url_not_unsupported info t heq
    · exact trojan_url_not_unsupported info t heq
    · exact ssr_url_not_unsupported info t heq
    · exact hysteria_url_not_unsupported info t heq
    · exact tuic_url_not_unsupported info t heq
    · exact wireguard_url_not_unsupported info t heq
    · push_neg at h1 h2
      simp only [hcSupportedProtocols, List.mem_cons, List.not_mem_nil,
        or_false] at hmem
      rcases hmem with e | e | e | e | e | e | e | e | e | e | e | e <;> simp_all

/-- Witness for C7: the tag "unknown" is rejected with the offending tag in
the error; the tag "ss" never produces that error. -/
theorem C7_witness :
    ("unknown" ∉ hcSupportedProtocols ∧
      build_proxy_url unknownProtoInfo =
        Except.error (BuildError.unsupportedProtocol "unknown")) ∧
    ("ss" ∈ hcSupportedProtocols ∧
      build_proxy_url ssExampleInfo ≠
        Except.error (BuildError.unsupportedProtocol "ss")) := by
  refine ⟨⟨by decide, ?_⟩, ⟨by decide, ?_⟩⟩
  · exact C7_unsupported_protocol.1 unknownProtoInfo (by decide)
  · exact C7_unsupported_protocol.2 ssExampleInfo (by decide) "ss"

/-! ## Claim C8 -/

/-- Claim C8: SSR and VMess connection strings round-trip.  For every SSR
node with a password, the builder yields "ssr://" followed by base64 text
whose decoding is exactly (the UTF-8 bytes of) the colon-delimited string
host:port:protocol:method:obfs:base64(password), followed — when the
obfs/protocol parameters are present — by
"/?obfsparam=(base64)&protoparam=(base64)".  For every VMess node with a
uuid, the builder yields "vmess://" followed by base64 text whose decoding
is exactly the serialized JSON configuration object, and that object
carries the original server, port, uuid, alterId, security, network,
transport and TLS option values losslessly. -/
theorem C8_ssr_vmess_roundtrip :
    (∀ (info : ProxyNodeInfo) (ei : ExtraInfo) (pw : String),
      info.extra_info = some ei → ei.password = some pw →
      build_ssr_url info =
        Except.ok ("ssr://" ++ encodeStd (ssrFullStr info ei pw)) ∧
      b64Decode (encodeStd (ssrFullStr info ei pw)).data =
        some (utf8 (ssrFullStr info ei pw).data) ∧
      (ei.obfsParam.getD "" = "" → ei.protocolParam.getD "" = "" →
        ssrFullStr info ei pw =
          info.server ++ ":" ++ natToStr info.port ++ ":" ++
            ei.protocol.getD "origin" ++ ":" ++ ei.method.getD "aes-256-cfb" ++
            ":" ++ ei.obfs.getD "plain" ++ ":" ++ encodeStd pw) ∧
      (ei.obfsParam.getD "" ≠ "" → ei.protocolParam.getD "" ≠ "" →
        ssrFullStr info ei pw =
          info.server ++ ":" ++ natToStr info.port ++ ":" ++
            ei.protocol.getD "origin" ++ ":" ++ ei.method.getD "aes-256-cfb" ++
            ":" ++ ei.obfs.getD "plain" ++ ":" ++ encodeStd pw ++
            "/?obfsparam=" ++ encodeStd (ei.obfsParam.getD "") ++
            "&protoparam=" ++ encodeStd (ei.protocolParam.getD ""))) ∧
    (∀ (info : ProxyNodeInfo) (ei : ExtraInfo) (uuid : String),
      info.extra_info = some ei → ei.uuid = some uuid →
      build_vmess_url info =
        Except.ok ("vmess://" ++ encodeStd (serializeJObj (vmessConfig info ei uuid))) ∧
      b64Decode (encodeStd (serializeJObj (vmessConfig info ei uuid))).data =
        some (utf8 (serializeJObj (vmessConfig info ei uuid)).data) ∧
      (vmessConfig info ei uuid).lookup "add" = some (JVal.str info.server) ∧
      (vmessConfig info ei uuid).lookup "port" = some (JVal.num (info.port : Int)) ∧
      (vmessConfig info ei uuid).lookup "id" = some (JVal.str uuid) ∧
      (∀ aid, ei.alterId = some aid →
        (vmessConfig info ei uuid).lookup "aid" = some (JVal.num aid)) ∧
      (∀ v, ei.security = some v →
        (vmessConfig info ei uuid).lookup "scy" = some (JVal.str v)) ∧
      (∀ v, ei.network = some v →
        (vmessConfig info ei uuid).lookup "net" = some (JVal.str v)) ∧
      (∀ v, ei.vtype = some v →
        (vmessConfig info ei uuid).lookup "type" = some (JVal.str v)) ∧
      (∀ v, ei.host = some v →
        (vmessConfig info ei uuid).lookup "host" = some (JVal.str v)) ∧
      (∀ v, ei.path = some v →
        (vmessConfig info ei uuid).lookup "path" = some (JVal.str v)) ∧
      (∀ v, ei.tls = some v →
        (vmessConfig info ei uuid).lookup "tls" = some (JVal.str v)) ∧
      (∀ v, ei.sni = some v →
        (vmessConfig info ei uuid).lookup "sni" = some (JVal.str v)) ∧
      (∀ v, ei.alpn = some v →
        (vmessConfig info ei uuid).lookup "alpn" = some (JVal.str v))) := by
  constructor
  · intro info ei pw hei hpw
    refine ⟨?_, b64_roundtrip _, ?_, ?_⟩
    · unfold build_ssr_url
      rw [hei]
      dsimp only
      rw [hpw]
    · intro ho hp
      unfold ssrFullStr ssrParams ssrBaseStr
      rw [ho, hp]
      simp
    · intro ho hp
      unfold ssrFullStr ssrParams ssrBaseStr
      rw [if_pos ho, if_pos hp]
      rw [if_pos (by simp)]
      have hint : ∀ a b : String, String.intercalate "&" [a, b] = a ++ "&" ++ b :=
        fun a b => rfl
      simp only [List.singleton_append]
      rw [hint]
      apply String.ext
      simp only [String.data_append, List.append_assoc, List.cons_append,
        List.nil_append]
  · intro info ei uuid hei huuid
    refine ⟨?_, b64_roundtrip _, rfl, rfl, rfl, ?_, ?_, ?_, ?_, ?_, ?_, ?_, ?_, ?_⟩
    · unfold build_vmess_url
      rw [hei]
      dsimp only
      rw [huuid]
    · intro aid ha
      have e : (vmessConfig info ei uuid).lookup "aid" =
          some (JVal.num (ei.alterId.getD 0)) := rfl
      rw [e, ha]
      rfl
    · intro v hv
      have e : (vmessConfig info ei uuid).lookup "scy" =
          some (JVal.str (ei.security.getD "auto")) := rfl
      rw [e, hv]
      rfl
    · intro v hv
      have e : (vmessConfig info ei uuid).lookup "net" =
          some (JVal.str (ei.network.getD "tcp")) := rfl
      rw [e, hv]
      rfl
    · intro v hv
      have e : (vmessConfig info ei uuid).lookup "type" =
          some (JVal.str (ei.vtype.getD "none")) := rfl
      rw [e, hv]
      rfl
    · intro v hv
      have e : (vmessConfig info ei uuid).lookup "host" =
          some (JVal.str (ei.host.getD "")) := rfl
      rw [e, hv]
      rfl
    · intro v hv
      have e : (vmessConfig info ei uuid).lookup "path" =
          some (JVal.str (ei.path.getD "")) := rfl
      rw [e, hv]
      rfl
    · intro v hv
      have e : (vmessConfig info ei uuid).lookup "tls" =
          some (JVal.str (ei.tls.getD "")) := rfl
      rw [e, hv]
      rfl
    · intro v hv
      have e : (vmessConfig info ei uuid).lookup "sni" =
          some (JVal.str (ei.sni.getD "")) := rfl
      rw [e, hv]
      rfl
    · intro v hv
      have e : (vmessConfig info ei uuid).lookup "alpn" =
          some (JVal.str (ei.alpn.getD "")) := rfl
      rw [e, hv]
      rfl

/-- Witness for C8: the concrete SSR and VMess example nodes round-trip. -/
theorem C8_witness :
    build_ssr_url ssrExampleInfo =
      Except.ok ("ssr://" ++ encodeStd (ssrFullStr ssrExampleInfo ssrExampleExtra "pw")) ∧
    b64Decode (encodeStd (ssrFullStr ssrExampleInfo ssrExampleExtra "pw")).data =
      some (utf8 (ssrFullStr ssrExampleInfo ssrExampleExtra "pw").data) ∧
    build_vmess_url vmessExampleInfo =
      Except.ok ("vmess://" ++ encodeStd (serializeJObj
        (vmessConfig vmessExampleInfo vmessExampleExtra
          "12345678-1234-1234-1234-123456789012"))) ∧
    (vmessConfig vmessExampleInfo vmessExampleExtra
      "12345678-1234-1234-1234-123456789012").lookup "add" =
      some (JVal.str "vmess.example.com") := by
  have hs := C8_ssr_vmess_roundtrip.1 ssrExampleInfo ssrExampleExtra "pw" rfl rfl
  have hv := C8_ssr_vmess_roundtrip.2 vmessExampleInfo vmessExampleExtra
    "12345678-1234-1234-1234-123456789012" rfl rfl
  exact ⟨hs.1, hs.2.1, hv.1, hv.2.2.1⟩

/-! ## Worker branch analysis -/

theorem check_single_noClient (env : ProbeEnv) (config : Config) (proxy : ProxyNode)
    (hc : env.clientOk = false) :
    check_single_proxy env config proxy = (none, []) := by
  unfold check_single_proxy
  rw [if_pos hc]

theorem check_single_dead (env : ProbeEnv) (config : Config) (proxy : ProxyNode)
    (hc : env.clientOk = true) (ha : env.aliveProbe.getD false = false) :
    check_single_proxy env config proxy =
      (some (deadResult proxy (some env.latencyMs)),
       [StatEvent.incFailed, StatEvent.incChecked]) := by
  unfold check_single_proxy
  rw [if_neg (by simp [hc])]
  dsimp only
  rw [if_pos ha]

theorem check_single_cfDrop (env : ProbeEnv) (config : Config) (proxy : ProxyNode)
    (hc : env.clientOk = true) (ha : env.aliveProbe.getD false = true)
    (hd : config.drop_bad_cf_nodes = true)
    (hcf : (env.cfProbe.getD (false, none, none)).1 = false) :
    check_single_proxy env config proxy =
      (some (deadResult proxy (some env.latencyMs)),
       [StatEvent.incAlive, StatEvent.incFailed, StatEvent.incChecked]) := by
  unfold check_single_proxy
  rw [if_neg (by simp [hc])]
  dsimp only
  rw [if_neg (by simp [ha]), if_pos ⟨hd, hcf⟩]

theorem check_single_alive (env : ProbeEnv) (config : Config) (proxy : ProxyNode)
    (hc : env.clientOk = true) (ha : env.aliveProbe.getD false = true)
    (hnd : ¬ (config.drop_bad_cf_nodes = true ∧
      (env.cfProbe.getD (false, none, none)).1 = false)) :
    ∃ r ae, check_single_proxy env config proxy =
      (some r, [StatEvent.incAlive] ++ ae ++ [StatEvent.incChecked]) ∧
      r.is_alive = true ∧ r.proxy = proxy ∧ r.latency = some env.latencyMs ∧
      countAlive ae = 0 ∧ countChecked ae = 0 ∧ countFailed ae = 0 := by
  unfold check_single_proxy
  rw [if_neg (by simp [hc])]
  dsimp only
  rw [if_neg (by simp [ha]), if_neg hnd]
  refine ⟨_, _, rfl, rfl, rfl, rfl, ?_, ?_, ?_⟩ <;>
  · by_cases hs : config.is_speed_test_enabled = true
    · rw [if_pos hs]
      rcases config.speed_test_url with _ | u <;>
        rcases env.speedProbe with _ | sp <;> rfl
    · rw [if_neg hs]
      rfl

/-- The shared downstream-defaults fact behind claims C1 and C3. -/
theorem check_single_dead_defaults (env : ProbeEnv) (config : Config)
    (proxy : ProxyNode) (r : CheckResult)
    (hr : (check_single_proxy env config proxy).1 = some r)
    (ha : r.is_alive = false) :
    r.speed = none ∧ r.media_unlock = MediaUnlockResult.default ∧
    r.is_cf_accessible = false ∧ r.country = none ∧ r.country_code = none ∧
    r.ip = none ∧ r.ip_risk = none ∧ r.cf_location = none ∧ r.cf_ip = none := by
  by_cases hc : env.clientOk = true
  · by_cases hal : env.aliveProbe.getD false = false
    · rw [check_single_dead env config proxy hc hal] at hr
      dsimp only at hr
      injection hr with hr
      subst hr
      exact ⟨rfl, rfl, rfl, rfl, rfl, rfl, rfl, rfl, rfl⟩
    · have hal' : env.aliveProbe.getD false = true := by
        revert hal; cases env.aliveProbe.getD false <;> simp
      by_cases hd : config.drop_bad_cf_nodes = true ∧
          (env.cfProbe.getD (false, none, none)).1 = false
      · rw [check_single_cfDrop env config proxy hc hal' hd.1 hd.2] at hr
        dsimp only at hr
        injection hr with hr
        subst hr
        exact ⟨rfl, rfl, rfl, rfl, rfl, rfl, rfl, rfl, rfl⟩
      · obtain ⟨r', ae, heq, halive, _, _, _, _, _⟩ :=
          check_single_alive env config proxy hc hal' hd
        rw [heq] at hr
        dsimp only at hr
        injection hr with hr
        rw [hr] at halive
        rw [halive] at ha
        cases ha
  · have hc' : env.clientOk = false := by
      revert hc; cases env.clientOk <;> simp
    rw [check_single_noClient env config proxy hc'] at hr
    cases hr

/-- Every worker whose client construction succeeds sends a result carrying
its own proxy descriptor. -/
theorem check_single_some (env : ProbeEnv) (config : Config) (proxy : ProxyNode)
    (hc : env.clientOk = true) :
    ∃ r, (check_single_proxy env config proxy).1 = some r ∧ r.proxy = proxy := by
  by_cases hal : env.aliveProbe.getD false = false
  · exact ⟨_, by rw [check_single_dead env config proxy hc hal], rfl⟩
  · have hal' : env.aliveProbe.getD false = true := by
      revert hal; cases env.aliveProbe.getD false <;> simp
    by_cases hd : config.drop_bad_cf_nodes = true ∧
        (env.cfProbe.getD (false, none, none)).1 = false
    · exact ⟨_, by rw [check_single_cfDrop env config proxy hc hal' hd.1 hd.2], rfl⟩
    · obtain ⟨r, ae, heq, _, hproxy, _, _, _, _⟩ :=
        check_single_alive env config proxy hc hal' hd
      exact ⟨r, by rw [heq], hproxy⟩

/-! ## Claim C1 -/

/-- Claim C1: for every proxy node checked by check_single_proxy, a result
with is_alive = false has speed none, the all-false default unlock set,
is_cf_accessible false, and no country/country_code/ip/ip_risk/cf_location/
cf_ip — probes below liveness are never reflected in a dead result. -/
theorem C1_dead_node_defaults (env : ProbeEnv) (config : Config)
    (proxy : ProxyNode) (r : CheckResult)
    (hr : (check_single_proxy env config proxy).1 = some r)
    (ha : r.is_alive = false) :
    r.speed = none ∧ r.media_unlock = MediaUnlockResult.default ∧
    r.is_cf_accessible = false ∧ r.country = none ∧ r.country_code = none ∧
    r.ip = none ∧ r.ip_risk = none ∧ r.cf_location = none ∧ r.cf_ip = none :=
  check_single_dead_defaults env config proxy r hr ha

/-- Witness for C1: the concrete dead probe environment. -/
theorem C1_witness :
    (check_single_proxy envDead cfgNoLimit nodeA).1 =
      some (deadResult nodeA (some 5)) ∧
    (deadResult nodeA (some 5)).is_alive = false ∧
    (deadResult nodeA (some 5)).speed = none ∧
    (deadResult nodeA (some 5)).media_unlock = MediaUnlockResult.default := by
  have h := C1_dead_node_defaults envDead cfgNoLimit nodeA
    (deadResult nodeA (some 5)) rfl rfl
  exact ⟨rfl, rfl, h.1, h.2.1⟩

/-! ## Claim C2 -/

theorem countAlive_append (l₁ l₂ : List StatEvent) :
    countAlive (l₁ ++ l₂) = countAlive l₁ + countAlive l₂ := by
  induction l₁ with
  | nil => simp [countAlive]
  | cons e rest ih => cases e <;> simp [countAlive, ih, Nat.add_right_comm]

theorem countChecked_append (l₁ l₂ : List StatEvent) :
    countChecked (l₁ ++ l₂) = countChecked l₁ + countChecked l₂ := by
  induction l₁ with
  | nil => simp [countChecked]
  | cons e rest ih => cases e <;> simp [countChecked, ih, Nat.add_right_comm]

theorem countFailed_append (l₁ l₂ : List StatEvent) :
    countFailed (l₁ ++ l₂) = countFailed l₁ + countFailed l₂ := by
  induction l₁ with
  | nil => simp [countFailed]
  | cons e rest ih => cases e <;> simp [countFailed, ih, Nat.add_right_comm]

/-- Claim C2 (corrected): the original claim says every spawned worker
increments checked exactly once regardless of outcome; in fact a worker
whose HTTP client cannot be built returns Err before touching any counter.
For every worker whose client construction succeeds: checked is incremented
exactly once, as the worker's last stats update; a dead/failed final result
additionally increments failed exactly once (an alive final result never
does); and whenever the liveness probe succeeds, alive is incremented
exactly once, as the first stats update — before the Cloudflare check and
regardless of the final outcome — while a failed liveness probe never
increments it. -/
theorem C2_counter_discipline (env : ProbeEnv) (config : Config)
    (proxy : ProxyNode) (hc : env.clientOk = true) :
    countChecked (check_single_proxy env config proxy).2 = 1 ∧
    (check_single_proxy env config proxy).2.getLast? = some StatEvent.incChecked ∧
    (∀ r, (check_single_proxy env config proxy).1 = some r →
      (r.is_alive = false → countFailed (check_single_proxy env config proxy).2 = 1) ∧
      (r.is_alive = true → countFailed (check_single_proxy env config proxy).2 = 0)) ∧
    (env.aliveProbe.getD false = true →
      countAlive (check_single_proxy env config proxy).2 = 1 ∧
      (check_single_proxy env config proxy).2.head? = some StatEvent.incAlive) ∧
    (env.aliveProbe.getD false = false →
      countAlive (check_single_proxy env config proxy).2 = 0) := by
  by_cases hal : env.aliveProbe.getD false = false
  · rw [check_single_dead env config proxy hc hal]
    refine ⟨rfl, rfl, ?_, ?_, fun _ => rfl⟩
    · intro r hr
      dsimp only at hr
      injection hr with hr
      subst hr
      exact ⟨fun _ => rfl, fun h => by cases h⟩
    · intro h
      rw [hal] at h
      cases h
  · have hal' : env.aliveProbe.getD false = true := by
      revert hal; cases env.aliveProbe.getD false <;> simp
    by_cases hd : config.drop_bad_cf_nodes = true ∧
        (env.cfProbe.getD (false, none, none)).1 = false
    · rw [check_single_cfDrop env config proxy hc hal' hd.1 hd.2]
      refine ⟨rfl, rfl, ?_, fun _ => ⟨rfl, rfl⟩, ?_⟩
      · intro r hr
        dsimp only at hr
        injection hr with hr
        subst hr
        exact ⟨fun _ => rfl, fun h => by cases h⟩
      · intro h
        rw [hal'] at h
        cases h
    · obtain ⟨r', ae, heq, halive, _, _, hc0, hk0, hf0⟩ :=
        check_single_alive env config proxy hc hal' hd
      rw [heq]
      dsimp only
      refine ⟨?_, ?_, ?_, ?_, ?_⟩
      · rw [countChecked_append, countChecked_append, hk0]
        rfl
      · exact List.getLast?_concat _
      · intro r hr
        injection hr with hr
        subst hr
        constructor
        · intro h
          rw [halive] at h
          cases h
        · intro _
          rw [countFailed_append, countFailed_append, hf0]
          rfl
      · intro _
        constructor
        · rw [countAlive_append, countAlive_append, hc0]
          rfl
        · rfl
      · intro h
        rw [hal'] at h
        cases h

/-- Counterexample to claim C2 as stated: a worker whose proxy URL reqwest
rejects (clientOk = false) completes — its task logs the error — without
incrementing checked or failed at all. -/
theorem C2_counterexample :
    countChecked (check_single_proxy envNoClient cfgNoLimit fooNode).2 = 0 ∧
    countFailed (check_single_proxy envNoClient cfgNoLimit fooNode).2 = 0 ∧
    (check_single_proxy envNoClient cfgNoLimit fooNode).2 = [] :=
  ⟨rfl, rfl, rfl⟩

/-- Witness for C2: a node that passes liveness but is dropped by the
Cloudflare filter still counts in alive, while checked and failed are each
incremented once. -/
theorem C2_witness :
    envAliveCfFail.clientOk = true ∧
    countChecked (check_single_proxy envAliveCfFail cfgDrop nodeA).2 = 1 ∧
    countAlive (check_single_proxy envAliveCfFail cfgDrop nodeA).2 = 1 ∧
    countFailed (check_single_proxy envAliveCfFail cfgDrop nodeA).2 = 1 := by
  have h := C2_counter_discipline envAliveCfFail cfgDrop nodeA rfl
  exact ⟨rfl, h.1, (h.2.2.2.1 rfl).1,
    (h.2.2.1 (deadResult nodeA (some 5)) rfl).1 rfl⟩

/-! ## Claim C3 -/

theorem collectLoop_no_limit : ∀ (l acc : List CheckResult),
    collectLoop 0 acc l = acc ++ l
  | [], acc => by simp [collectLoop]
  | r :: rest, acc => by
    unfold collectLoop
    rw [if_neg (by simp)]
    rw [collectLoop_no_limit rest (acc ++ [r])]
    simp

/-- Claim C3 (corrected): the original claim says every candidate —
including one whose proxy URL cannot be turned into an HTTP client —
appears in the output; in fact such a worker's Err is only logged and its
node is silently omitted.  With early stop disabled (success_limit = 0),
every candidate whose HTTP client can be built appears in the returned
list, reported by a result carrying its descriptor, and when that result is
dead its downstream fields are at their defaults. -/
theorem C3_failed_nodes_reported (config : Config)
    (inputs : List (ProxyNode × ProbeEnv)) (arrived : List CheckResult)
    (hlim : config.success_limit = 0)
    (hperm : arrived.Perm (sentResults config inputs))
    (p : ProxyNode) (env : ProbeEnv) (hmem : (p, env) ∈ inputs)
    (hc : env.clientOk = true) :
    ∃ r ∈ check_proxies config arrived,
      r.proxy = p ∧ (check_single_proxy env config p).1 = some r ∧
      (r.is_alive = false →
        r.speed = none ∧ r.media_unlock = MediaUnlockResult.default ∧
        r.is_cf_accessible = false ∧ r.country = none ∧ r.ip = none ∧
        r.cf_location = none ∧ r.cf_ip = none) := by
  obtain ⟨r, hr, hproxy⟩ := check_single_some env config p hc
  have hsent : r ∈ sentResults config inputs := by
    unfold sentResults
    exact List.mem_filterMap.mpr ⟨(p, env), hmem, hr⟩
  have harr : r ∈ arrived := hperm.mem_iff.mpr hsent
  have hout : check_proxies config arrived = arrived := by
    unfold check_proxies
    rw [hlim, collectLoop_no_limit]
    simp
  refine ⟨r, by rw [hout]; exact harr, hproxy, hr, ?_⟩
  intro ha
  have h := check_single_dead_defaults env config p r hr ha
  exact ⟨h.1, h.2.1, h.2.2.1, h.2.2.2.1, h.2.2.2.2.2.1, h.2.2.2.2.2.2.2.1,
    h.2.2.2.2.2.2.2.2⟩

/-- Counterexample to claim C3 as stated: a single candidate whose proxy
URL yields no HTTP client (e.g. a scheme reqwest rejects) sends nothing;
with success_limit = 0 the output is empty — the candidate is omitted, not
reported with is_alive = false. -/
theorem C3_counterexample :
    envNoClient.clientOk = false ∧
    cfgNoLimit.success_limit = 0 ∧
    sentResults cfgNoLimit [(fooNode, envNoClient)] = [] ∧
    check_proxies cfgNoLimit (sentResults cfgNoLimit [(fooNode, envNoClient)]) = [] :=
  ⟨rfl, rfl, rfl, rfl⟩

/-- Witness for C3: a dead-probing candidate still appears in the output. -/
theorem C3_witness :
    ∃ r ∈ check_proxies cfgNoLimit (sentResults cfgNoLimit [(nodeA, envDead)]),
      r.proxy = nodeA ∧ (check_single_proxy envDead cfgNoLimit nodeA).1 = some r ∧
      (r.is_alive = false →
        r.speed = none ∧ r.media_unlock = MediaUnlockResult.default ∧
        r.is_cf_accessible = false ∧ r.country = none ∧ r.ip = none ∧
        r.cf_location = none ∧ r.cf_ip = none) :=
  C3_failed_nodes_reported cfgNoLimit [(nodeA, envDead)] _ rfl (List.Perm.refl _)
    nodeA envDead (by simp) rfl

/-! ## Claim C4 -/

theorem countAliveRes_eq_length {m : List CheckResult}
    (h : ∀ x ∈ m, x.is_alive = true) : countAliveRes m = m.length := by
  unfold countAliveRes
  rw [List.filter_eq_self.mpr h]

theorem collectLoop_all_alive (k : Nat) : ∀ (l acc : List CheckResult),
    0 < k → (∀ r ∈ l, r.is_alive = true) → (∀ r ∈ acc, r.is_alive = true) →
    acc.length < k → k ≤ acc.length + l.length →
    collectLoop k acc l = acc ++ l.take (k - acc.length)
  | [], acc => by
    intro h0 _ _ hlt hle
    simp at hle
    omega
  | r :: rest, acc => by
    intro h0 hl hacc hlt hle
    have hr : r.is_alive = true := hl r (by simp)
    have hacc2 : ∀ x ∈ acc ++ [r], x.is_alive = true := by
      intro x hx
      rcases List.mem_append.mp hx with hx | hx
      · exact hacc x hx
      · simp at hx
        rw [hx]
        exact hr
    have hcnt : countAliveRes (acc ++ [r]) = acc.length + 1 := by
      rw [countAliveRes_eq_length hacc2]
      simp
    unfold collectLoop
    by_cases hstop : k ≤ acc.length + 1
    · have hk : k = acc.length + 1 := by omega
      rw [if_pos ⟨h0, by rw [hcnt]; omega⟩]
      have htake : k - acc.length = 1 := by omega
      rw [htake]
      simp
    · rw [if_neg (by rw [hcnt]; omega)]
      rw [collectLoop_all_alive k rest (acc ++ [r]) h0
        (fun x hx => hl x (by simp [hx])) hacc2
        (by simp; omega) (by simp at hle ⊢; omega)]
      have harith : k - acc.length = (k - (acc ++ [r]).length) + 1 := by
        simp
        omega
      rw [harith, List.take_succ_cons]
      simp

/-- Claim C4: with an early-stop threshold 0 < k < N and every arriving
result alive, the collector stops reading as soon as the alive count in the
accumulated output reaches k: the output is exactly the first k arrivals —
k alive results — and strictly fewer results than the N workers produced
were read. -/
theorem C4_early_stop (config : Config) (arrived : List CheckResult)
    (h0 : 0 < config.success_limit)
    (hN : config.success_limit < arrived.length)
    (hall : ∀ r ∈ arrived, r.is_alive = true) :
    check_proxies config arrived = arrived.take config.success_limit ∧
    (check_proxies config arrived).length = config.success_limit ∧
    countAliveRes (check_proxies config arrived) = config.success_limit ∧
    (check_proxies config arrived).length < arrived.length := by
  have hmain : check_proxies config arrived =
      arrived.take config.success_limit := by
    unfold check_proxies
    rw [collectLoop_all_alive config.success_limit arrived [] h0 hall
      (by simp) (by simpa) (by simpa using le_of_lt hN)]
    simp
  refine ⟨hmain, ?_, ?_, ?_⟩
  · rw [hmain, List.length_take]
    omega
  · rw [hmain, countAliveRes_eq_length
      (fun r hr => hall r (List.take_subset _ _ hr))]
    rw [List.length_take]
    omega
  · rw [hmain, List.length_take]
    omega

/-- Witness for C4: three alive arrivals, threshold two. -/
theorem C4_witness :
    check_proxies cfgLimit2 [aliveRes, aliveRes, aliveRes] =
      [aliveRes, aliveRes] ∧
    (check_proxies cfgLimit2 [aliveRes, aliveRes, aliveRes]).length = 2 ∧
    countAliveRes (check_proxies cfgLimit2 [aliveRes, aliveRes, aliveRes]) = 2 := by
  have h := C4_early_stop cfgLimit2 [aliveRes, aliveRes, aliveRes]
    (by decide) (by decide) (by decide)
  exact ⟨h.1, h.2.1, h.2.2.1⟩

/-! ## Claims C9 and C10 -/

/-- Claim C9: at or below min_spacing candidates the shuffle is a no-op
(total, never panics, list unchanged); above it, the computation is exactly
the fixed budget of three shuffle-then-adjust rounds, whatever the input
order, threshold, or spacing (each round's loops are bounded by the list
length, so the whole function is total). -/
theorem C9_shuffle_noop_and_budget
    (oracle : Nat → List ProxyNode → List ProxyNode) (l : List ProxyNode)
    (th : ℚ) (msp : Nat) :
    (l.length ≤ msp → smart_shuffle_proxies oracle l th msp = l) ∧
    (msp < l.length →
      smart_shuffle_proxies oracle l th msp =
        adjustRound th msp (oracle 2 (adjustRound th msp (oracle 1
          (adjustRound th msp (oracle 0 l)))))) := by
  constructor
  · intro h
    unfold smart_shuffle_proxies
    rw [if_pos h]
  · intro h
    unfold smart_shuffle_proxies
    rw [if_neg (by omega)]
    have e : List.range 3 = [0, 1, 2] := rfl
    rw [e]
    rfl

/-- Witness for C9: a two-node list with spacing two is untouched; a
three-node list runs the three rounds. -/
theorem C9_witness :
    ([nodeA, nodeB].length ≤ 2 ∧
      smart_shuffle_proxies idOracle [nodeA, nodeB] (3/4) 2 = [nodeA, nodeB]) ∧
    (2 < [nodeA, nodeB, fooNode].length ∧
      smart_shuffle_proxies idOracle [nodeA, nodeB, fooNode] (3/4) 2 =
        adjustRound (3/4) 2 (adjustRound (3/4) 2
          (adjustRound (3/4) 2 [nodeA, nodeB, fooNode]))) := by
  constructor
  · exact ⟨by decide,
      (C9_shuffle_noop_and_budget idOracle [nodeA, nodeB] (3/4) 2).1 (by decide)⟩
  · exact ⟨by decide,
      (C9_shuffle_noop_and_budget idOracle [nodeA, nodeB, fooNode] (3/4) 2).2
        (by decide)⟩

theorem getD_cons_perm : ∀ (xs : List ProxyNode) (m : Nat) (x : ProxyNode),
    m < xs.length → List.Perm ((xs.getD m dummyNode) :: xs.set m x) (x :: xs)
  | [], m, x => by
    intro h
    simp at h
  | y :: ys, 0, x => by
    intro _
    simp only [List.getD_cons_zero, List.set_cons_zero]
    exact List.Perm.swap x y ys
  | y :: ys, m + 1, x => by
    intro h
    simp only [List.getD_cons_succ, List.set_cons_succ]
    exact ((List.Perm.swap y (ys.getD m dummyNode) (ys.set m x)).trans
      (List.Perm.cons y (getD_cons_perm ys m x (by simpa using h)))).trans
      (List.Perm.swap x y ys)

theorem swapL_perm : ∀ (l : List ProxyNode) (j k : Nat), j < l.length →
    k < l.length → List.Perm (swapL l j k) l
  | [], j, k => by
    intro h _
    simp at h
  | y :: ys, 0, 0 => by
    intro _ _
    unfold swapL
    simp only [List.getD_cons_zero, List.set_cons_zero]
    exact List.Perm.refl _
  | y :: ys, 0, m + 1 => by
    intro _ hk
    unfold swapL
    simp only [List.getD_cons_zero, List.getD_cons_succ, List.set_cons_zero,
      List.set_cons_succ]
    exact getD_cons_perm ys m y (by simpa using hk)
  | y :: ys, n + 1, 0 => by
    intro hj _
    unfold swapL
    simp only [List.getD_cons_zero, List.getD_cons_succ, List.set_cons_zero,
      List.set_cons_succ]
    exact getD_cons_perm ys n y (by simpa using hj)
  | y :: ys, n + 1, m + 1 => by
    intro hj hk
    unfold swapL
    simp only [List.getD_cons_succ, List.set_cons_succ]
    exact List.Perm.cons y
      (swapL_perm ys n m (by simpa using hj) (by simpa using hk))

theorem adjustStep_perm (th : ℚ) (i : Nat) (l : List ProxyNode) (j : Nat)
    (hj : j < l.length) : List.Perm (adjustStep th i l j) l := by
  unfold adjustStep
  split_ifs with h
  · cases hf : findSwap l th i j with
    | none => exact List.Perm.refl l
    | some k =>
      have hk : k < l.length := by
        have hmem := List.mem_of_find?_eq_some hf
        rw [List.mem_range'_1] at hmem
        omega
      exact swapL_perm l j k hj hk
  · exact List.Perm.refl l

theorem foldl_adjustStep_perm (th : ℚ) (i : Nat) : ∀ (js : List Nat)
    (l : List ProxyNode), (∀ j ∈ js, j < l.length) →
    List.Perm (js.foldl (adjustStep th i) l) l
  | [], l => fun _ => List.Perm.refl l
  | j :: js, l => by
    intro hjs
    simp only [List.foldl_cons]
    have h1 : List.Perm (adjustStep th i l j) l :=
      adjustStep_perm th i l j (hjs j (by simp))
    refine (foldl_adjustStep_perm th i js (adjustStep th i l j) ?_).trans h1
    intro x hx
    rw [h1.length_eq]
    exact hjs x (by simp [hx])

theorem adjustInner_perm (th : ℚ) (msp i : Nat) (l : List ProxyNode) :
    List.Perm (adjustInner th msp i l) l := by
  unfold adjustInner
  apply foldl_adjustStep_perm
  intro j hj
  rw [List.mem_range'_1] at hj
  omega

theorem foldl_adjustInner_perm (th : ℚ) (msp : Nat) : ∀ (idxs : List Nat)
    (l : List ProxyNode),
    List.Perm (idxs.foldl (fun acc i => adjustInner th msp i acc) l) l
  | [], l => List.Perm.refl l
  | i :: idxs, l => by
    simp only [List.foldl_cons]
    exact (foldl_adjustInner_perm th msp idxs _).trans
      (adjustInner_perm th msp i l)

theorem adjustRound_perm (th : ℚ) (msp : Nat) (l : List ProxyNode) :
    List.Perm (adjustRound th msp l) l :=
  foldl_adjustInner_perm th msp (List.range l.length) l

/-- Claim C10: whenever each round's random arrangement is a permutation of
its input, smart_shuffle_proxies returns a permutation of its input: the
multiset of nodes is preserved exactly — the adjustment pass only performs
in-bounds pairwise swaps and never inserts, removes, duplicates or mutates
a node. -/
theorem C10_shuffle_permutation
    (oracle : Nat → List ProxyNode → List ProxyNode)
    (hperm : ∀ r m, List.Perm (oracle r m) m)
    (l : List ProxyNode) (th : ℚ) (msp : Nat) :
    List.Perm (smart_shuffle_proxies oracle l th msp) l := by
  unfold smart_shuffle_proxies
  split_ifs with h
  · exact List.Perm.refl l
  · have gen : ∀ (rs : List Nat) (m : List ProxyNode),
        List.Perm (rs.foldl (fun acc r => adjustRound th msp (oracle r acc)) m) m := by
      intro rs
      induction rs with
      | nil => exact fun m => List.Perm.refl m
      | cons r rs ih =>
        intro m
        simp only [List.foldl_cons]
        exact (ih _).trans ((adjustRound_perm th msp _).trans (hperm r m))
    exact gen (List.range 3) l

/-- Witness for C10: the identity arrangement is a permutation, and the
shuffled three-node list is a permutation of the input. -/
theorem C10_witness :
    (∀ (r : Nat) (m : List ProxyNode), List.Perm (idOracle r m) m) ∧
    List.Perm (smart_shuffle_proxies idOracle [nodeA, nodeB, fooNode] (3/4) 2)
      [nodeA, nodeB, fooNode] :=
  ⟨fun _ _ => List.Perm.refl _,
   C10_shuffle_permutation idOracle (fun _ _ => List.Perm.refl _)
     [nodeA, nodeB, fooNode] (3/4) 2⟩

end SubsCheck
